import Mathlib

/-!
Shallow embedding of the log-statistics extractor core of `src/analyzer.py`
(repository RCA-Experiement-1), together with theorems settling the claims
about it.  Python strings are modelled as Lean `String` (one `Char` per byte;
all concrete inputs are ASCII), Python dicts as insertion-ordered association
lists, Python sets as insertion-ordered duplicate-free lists, the file system
as an explicit map from path to file data, and the model-server collaborator
as an oracle from prompt to `Except Unit` response.  `json.loads` is modelled
by a JSON-subset reader (objects whose values are escape-free strings or
nested objects); inputs outside the subset are treated as parse failures,
which the analyzed code handles on the same code path as any malformed line.
-/

set_option maxRecDepth 20000

namespace RCA

/-! ## Python string primitives -/

/-- Python `str.isspace` characters used by `str.strip` (ASCII subset). -/
def isPyWs (c : Char) : Bool :=
  c = ' ' || c = '\t' || c = '\n' || c = '\r' || c = '\x0b' || c = '\x0c'

/-- Strip helper on raw characters. -/
def pyStripChars (cs : List Char) : List Char :=
  ((cs.dropWhile isPyWs).reverse.dropWhile isPyWs).reverse

/-- Python `str.strip()` (ASCII whitespace subset). -/
def pyStrip (s : String) : String :=
  String.mk (pyStripChars s.data)

/-- Python `str.lower()` (ASCII subset: `Char.toLower`). -/
def pyLower (s : String) : String :=
  String.mk (s.data.map Char.toLower)

/-- Python `str.upper()` (ASCII subset: `Char.toUpper`). -/
def pyUpper (s : String) : String :=
  String.mk (s.data.map Char.toUpper)

/-- Split a character list at newline characters, keeping empty pieces. -/
def splitOnNl : List Char → List (List Char)
  | [] => [[]]
  | c :: cs =>
    if c = '\n' then [] :: splitOnNl cs
    else
      match splitOnNl cs with
      | [] => [[c]]
      | p :: ps => (c :: p) :: ps

/-- Split pieces with the trailing empty piece (for a trailing newline)
removed. -/
def pySplitCore (cs : List Char) : List (List Char) :=
  let ps := splitOnNl cs
  if ps.getLast? = some [] then ps.dropLast else ps

/-- Python `str.splitlines()` restricted to `\n` separators: no element for a
trailing newline, and `"".splitlines() = []`. -/
def pySplitlines (s : String) : List String :=
  if s.data = [] then [] else (pySplitCore s.data).map String.mk

/-- Python `sep.join(xs)`. -/
def pyJoin (sep : String) : List String → String
  | [] => ""
  | [x] => x
  | x :: y :: xs => x ++ sep ++ pyJoin sep (y :: xs)

/-- Python slicing `s[:n]` (both count code points). -/
def pyTake (s : String) (n : Nat) : String :=
  String.mk (s.data.take n)

/-- Boolean prefix test on character lists. -/
def listPrefixB : List Char → List Char → Bool
  | [], _ => true
  | _ :: _, [] => false
  | a :: as, b :: bs => a = b && listPrefixB as bs

/-- Boolean substring test on character lists. -/
def containsSubAux (needle : List Char) : List Char → Bool
  | [] => listPrefixB needle []
  | c :: cs => listPrefixB needle (c :: cs) || containsSubAux needle cs

/-- Python `needle in hay` on strings. -/
def containsSub (needle hay : String) : Bool :=
  containsSubAux needle.data hay.data

/-- Regex word character `\w` (ASCII subset). -/
def isWordChar (c : Char) : Bool :=
  c.isAlphanum || c = '_'

/-- Word boundary `\b` before the current position, given the previous char. -/
def boundaryOk (prev : Option Char) : Bool :=
  match prev with
  | none => true
  | some c => !isWordChar c

/-- Word boundary `\b` at the start of the remaining characters. -/
def boundaryAfterOk (cs : List Char) : Bool :=
  match cs with
  | [] => true
  | c :: _ => !isWordChar c

/-- Match one word-token at the current position followed by `\b`. -/
def wordAt (tok : List Char) (cs : List Char) : Bool :=
  listPrefixB tok cs && boundaryAfterOk (cs.drop tok.length)

/-- Scan for `\btok\b` for any token in `toks` (tokens are non-empty). -/
def wordOccursAux (toks : List (List Char)) (prev : Option Char) : List Char → Bool
  | [] => false
  | c :: rest =>
    (boundaryOk prev && toks.any (fun t => wordAt t (c :: rest)))
      || wordOccursAux toks (some c) rest

/-- Regex search for any whole word of `toks`, on an already lowercased line. -/
def wordOccurs (toks : List String) (s : String) : Bool :=
  wordOccursAux (toks.map String.data) none s.data

/-! ## JSON-subset reader modelling `json.loads` -/

/-- JSON values of the modelled subset: escape-free strings and objects. -/
inductive JVal where
  | str : String → JVal
  | obj : List (String × JVal) → JVal

/-- Read the rest of a JSON string after the opening quote; no escapes. -/
def parseJStr : List Char → Option (String × List Char)
  | [] => none
  | c :: cs =>
    if c = '"' then some ("", cs)
    else if c = '\\' then none
    else
      match parseJStr cs with
      | some (s, rest) => some (String.mk (c :: s.data), rest)
      | none => none

/-- JSON whitespace skipping. -/
def skipWsJ (cs : List Char) : List Char :=
  cs.dropWhile (fun c => c = ' ' || c = '\t' || c = '\n' || c = '\r')

mutual

/-- Read one JSON value of the subset (string or object), fuelled. -/
def parseJVal : Nat → List Char → Option (JVal × List Char)
  | 0, _ => none
  | fuel + 1, cs0 =>
    match skipWsJ cs0 with
    | '"' :: rest =>
      match parseJStr rest with
      | some (s, r) => some (JVal.str s, r)
      | none => none
    | '\x7b' :: rest =>
      match skipWsJ rest with
      | '\x7d' :: r2 => some (JVal.obj [], r2)
      | r2 =>
        match parseJPairs fuel r2 with
        | some (fs, r3) => some (JVal.obj fs, r3)
        | none => none
    | _ => none

/-- Read one or more `"key": value` pairs followed by `}`. -/
def parseJPairs : Nat → List Char → Option (List (String × JVal) × List Char)
  | 0, _ => none
  | fuel + 1, cs =>
    match skipWsJ cs with
    | '"' :: rest =>
      match parseJStr rest with
      | some (k, r1) =>
        match skipWsJ r1 with
        | ':' :: r2 =>
          match parseJVal fuel r2 with
          | some (v, r3) =>
            match skipWsJ r3 with
            | ',' :: r4 =>
              match parseJPairs fuel r4 with
              | some (fs, r5) => some ((k, v) :: fs, r5)
              | none => none
            | '\x7d' :: r4 => some ([(k, v)], r4)
            | _ => none
          | none => none
        | _ => none
      | none => none
    | _ => none

end

/-- Model of `json.loads` at the call sites of the analyzer: succeeds only on
a full top-level object of the subset (which the `startswith('{')` guard at
every call site already selects for). -/
def jsonLoads (s : String) : Option (List (String × JVal)) :=
  match parseJVal (s.data.length + 1) s.data with
  | some (JVal.obj fs, rest) => if skipWsJ rest = [] then some fs else none
  | _ => none

/-- Python dict lookup on the parsed object: a repeated key keeps the last
value, as in `json.loads`. -/
def jGet (fs : List (String × JVal)) (k : String) : Option JVal :=
  (fs.reverse.find? (fun p => p.1 == k)).map Prod.snd

/-- Python `entry.get(k, '')` where the call site treats the value as a
string; a nested-object value is read as `''` (the source would raise there,
aborting the scan early — none of the proved claims distinguishes the two). -/
def jGetStr (fs : List (String × JVal)) (k : String) : String :=
  match jGet fs k with
  | some (JVal.str s) => s
  | _ => ""

/-- Python `entry.get('data', {})` as an object. -/
def jGetData (fs : List (String × JVal)) : List (String × JVal) :=
  match jGet fs "data" with
  | some (JVal.obj o) => o
  | _ => []

/-- Python `entry.get('level', '').upper()` (ASCII `toUpper`). -/
def jLevel (fs : List (String × JVal)) : String :=
  pyUpper (jGetStr fs "level")

/-! ## Sorting, counting and rendering helpers -/

/-- Python `counts[k] = counts.get(k, 0) + 1` on an insertion-ordered dict
(keys are unique; a new key is appended). -/
def bump : List (String × Nat) → String → List (String × Nat)
  | [], k => [(k, 1)]
  | p :: ps, k => if p.1 == k then (p.1, p.2 + 1) :: ps else p :: bump ps k

/-- Python `sorted(items, key=lambda x: x[1], reverse=True)`: stable sort by
descending count (equal counts keep insertion order).  `List.insertionSort`
with a total preorder is stable, and any two stable sorts agree. -/
def sortByCountDesc (l : List (String × Nat)) : List (String × Nat) :=
  List.insertionSort (fun a b => b.2 ≤ a.2) l

/-- Python string `<`: lexicographic comparison of code points. -/
def strLtChars : List Char → List Char → Bool
  | [], [] => false
  | [], _ :: _ => true
  | _ :: _, [] => false
  | a :: as, b :: bs =>
    if a.toNat < b.toNat then true
    else if b.toNat < a.toNat then false
    else strLtChars as bs

/-- Python string `<=`, as the negation of the reverse strict order. -/
def strLeB (a b : String) : Bool := !(strLtChars b.data a.data)

/-- Ordering used by `sorted(items, key=lambda kv: (-kv[1], kv[0]))`:
descending count, ascending key (Python string order) on ties. -/
abbrev countKeyRel (a b : String × Nat) : Prop :=
  b.2 < a.2 ∨ (a.2 = b.2 ∧ strLeB a.1 b.1 = true)

/-- Python `sorted(items, key=lambda kv: (-kv[1], kv[0]))`. -/
def sortByCountKey (l : List (String × Nat)) : List (String × Nat) :=
  List.insertionSort countKeyRel l

/-- Render one `f"{k}({v})"` item. -/
def fmtKv (p : String × Nat) : String :=
  p.1 ++ "(" ++ toString p.2 ++ ")"

/-- Python `repr` of an insertion-ordered string-to-int dict,
`{'k': v, 'k2': v2}`. -/
def pyDictRepr (l : List (String × Nat)) : String :=
  "\x7b" ++ pyJoin ", " (l.map (fun p => "\x27" ++ p.1 ++ "\x27: " ++ toString p.2)) ++ "\x7d"

/-- Helper for `pyThousands`: insert a comma before every third digit,
walking the reversed digit list. -/
def groupRevAux : List Char → Nat → List Char
  | [], _ => []
  | c :: cs, i =>
    (if i ≠ 0 ∧ i % 3 = 0 then [',', c] else [c]) ++ groupRevAux cs (i + 1)

/-- Python `f"{n:,}"` for a natural number. -/
def pyThousands (n : Nat) : String :=
  String.mk ((groupRevAux (toString n).data.reverse 0).reverse)

/-- Python `f"{size/(1024*1024):.1f}"`: tenths of a mebibyte.  Division by
the power of two is exact in binary floating point; the half-up tie rounding
used here can differ from the round-half-even of CPython on exact ties, which
no proved claim depends on. -/
def fmtMb1 (size : Nat) : String :=
  let t := (size * 10 + 524288) / 1048576
  toString (t / 10) ++ "." ++ toString (t % 10)

/-- Python `os.path.basename` for forward-slash paths: the characters
after the last slash. -/
def pyBasename (p : String) : String :=
  String.mk ((p.data.reverse.takeWhile (fun c => c != '/')).reverse)

/-- Fifty equals signs, Python `'='*50`. -/
def eq50 : String := String.mk (List.replicate 50 '=')

/-- Thirty equals signs, Python `'='*30`. -/
def eq30 : String := String.mk (List.replicate 30 '=')

/-! ## `_count_keywords` (analyzer.py lines 857-895) -/

/-- Scan for `\btime\s*out(s|ed)?\b` at one position (the second regex
alternative `\btimeout(s)?\b` is the zero-whitespace case of the first). -/
def timePatAt (prev : Option Char) (cs : List Char) : Bool :=
  boundaryOk prev &&
  listPrefixB "time".data cs &&
  (let r1 := (cs.drop 4).dropWhile isPyWs
   listPrefixB "out".data r1 &&
   (let r2 := r1.drop 3
    if listPrefixB "s".data r2 then boundaryAfterOk (r2.drop 1)
    else if listPrefixB "ed".data r2 then boundaryAfterOk (r2.drop 2)
    else boundaryAfterOk r2))

/-- Search the whole line for the timeout pattern. -/
def timeoutOccursAux (prev : Option Char) : List Char → Bool
  | [] => false
  | c :: rest => timePatAt prev (c :: rest) || timeoutOccursAux (some c) rest

/-- The keyword/pattern table of `_count_keywords`, with each regex turned
into whole-word alternatives on the lowercased line (patterns carry
`re.IGNORECASE`).  `traceback` in the `exception` pattern is a plain
substring, without word boundaries, exactly as in the source. -/
def keywordMatchers : List (String × (String → Bool)) :=
  [("error", fun s => wordOccurs ["error", "errors", "fatal", "panic"] s),
   ("warn", fun s => wordOccurs ["warn", "warning", "warned", "warns"] s),
   ("timeout", fun s => timeoutOccursAux none s.data),
   ("fail", fun s => wordOccurs ["fail", "failed", "failure", "fails"] s),
   ("exception", fun s =>
     wordOccurs ["exception", "exceptions"] s || containsSub "traceback" s),
   ("perf", fun s => wordOccurs ["perf", "performance", "slow"] s),
   ("latency", fun s => wordOccurs ["latency", "latencies"] s),
   ("search", fun s => wordOccurs ["search", "searching"] s),
   ("cart", fun s => wordOccurs ["cart", "carts"] s),
   ("checkout", fun s => wordOccurs ["checkout", "checkouts"] s),
   ("payment", fun s => wordOccurs ["payment", "payments", "pay"] s)]

/-- Keys of the keyword table matching one line, in table order. -/
def matchedKeywords (ln : String) : List String :=
  keywordMatchers.filterMap (fun p => if p.2 (pyLower ln) then some p.1 else none)

/-- Model of `_count_keywords`. -/
def countKeywords (lines : List String) : List (String × Nat) :=
  lines.foldl
    (fun d ln => if ln = "" then d else (matchedKeywords ln).foldl bump d) []

/-! ## `_group_by_transaction` (analyzer.py lines 324-379) -/

/-- Character class `[-A-Za-z0-9._:]` of the identifier capture groups. -/
def txnClassChar (c : Char) : Bool :=
  c = '-' || c.isAlpha || c.isDigit || c = '.' || c = '_' || c = ':'

/-- Match `\s*[:=]\s*\"?([-A-Za-z0-9._:]+)\"?` and return the capture.  The
optional closing quote never backtracks into the greedy capture because `"`
is outside the capture class. -/
def afterKeyMatch (cs : List Char) : Option String :=
  match cs.dropWhile isPyWs with
  | [] => none
  | c :: r2 =>
    if c = ':' || c = '=' then
      let r3 := r2.dropWhile isPyWs
      let r4 := match r3 with
        | '"' :: t => t
        | t => t
      let cap := r4.takeWhile txnClassChar
      if cap = [] then none else some (String.mk cap)
    else none

/-- Try one alternation key at the current position: literal key, then a
greedy optional `Id` with regex backtracking, then `\b` and the value part.
The line is already lowercased (the patterns carry `re.IGNORECASE` and the
result is lowercased by `normalize` anyway). -/
def tryKeyAt (useOptId : Bool) (key : List Char) (cs : List Char) : Option String :=
  if listPrefixB key cs then
    let afterK := cs.drop key.length
    let withId : Option String :=
      if useOptId && listPrefixB "id".data afterK then
        let a2 := afterK.drop 2
        if boundaryAfterOk a2 then afterKeyMatch a2 else none
      else none
    match withId with
    | some r => some r
    | none => if boundaryAfterOk afterK then afterKeyMatch afterK else none
  else none

/-- Regex `search`: leftmost position, alternatives in pattern order. -/
def searchKey (useOptId : Bool) (alts : List (List Char)) (prev : Option Char) :
    List Char → Option String
  | [] => none
  | c :: rest =>
    match
      (if boundaryOk prev then alts.findSome? (fun a => tryKeyAt useOptId a (c :: rest))
       else none) with
    | some r => some r
    | none => searchKey useOptId alts (some c) rest

/-- Characters stripped by `normalize`: `'"\'[](){}:,'`. -/
def normStripChar (c : Char) : Bool :=
  c = '"' || c = '\x27' || c = '[' || c = ']' || c = '(' || c = ')' ||
  c = '\x7b' || c = '\x7d' || c = ':' || c = ','

/-- The `normalize` helper of `_group_by_transaction`: strip whitespace,
strip quotes/brackets/punctuation, lowercase. -/
def normalizeTx (s : String) : String :=
  let a := pyStripChars s.data
  let b := ((a.dropWhile normStripChar).reverse.dropWhile normStripChar).reverse
  pyLower (String.mk b)

/-- The group key chosen for one line: the `transactionId` pattern first,
then the `transaction|transId|txn|session|trace` fallback pattern, else the
sentinel `unknown`. -/
def txKeyOf (ln : String) : String :=
  if ln = "" then "unknown"
  else
    let low := (pyLower ln).data
    match searchKey false ["transactionid".data] none low with
    | some k => normalizeTx k
    | none =>
      match
        searchKey true
          ["transaction".data, "transid".data, "txn".data, "session".data,
           "trace".data] none low with
      | some k => normalizeTx k
      | none => "unknown"

/-- Append a line to its group, Python dict semantics (keys are unique; a
new key is appended). -/
def updateGroups : List (String × List String) → String → String →
    List (String × List String)
  | [], k, ln => [(k, [ln])]
  | p :: ps, k, ln =>
    if p.1 == k then (p.1, p.2 ++ [ln]) :: ps else p :: updateGroups ps k ln

/-- Model of `_group_by_transaction`. -/
def groupByTransaction (lines : List String) : List (String × List String) :=
  lines.foldl (fun g ln => updateGroups g (txKeyOf ln) ln) []

/-- Lookup of one group, the empty list when the key is absent. -/
def lookupGroup (g : List (String × List String)) (k : String) : List String :=
  match g.find? (fun p => p.1 == k) with
  | some p => p.2
  | none => []

/-! ## File system model -/

/-- One file of the modelled file system: `isfile` is `os.path.isfile`,
`mtime` is `os.path.getmtime`, `size` is `os.path.getsize` (file metadata),
and `content` the bytes produced by reading it (one `Char` per byte). -/
structure FileData where
  isfile : Bool
  mtime : Int
  size : Nat
  content : List Char

/-- The file system: `none` models a missing or unreadable path. -/
abbrev FS := String → Option FileData

/-! ## `read_sqlite_log_rows` (analyzer.py lines 147-234) -/

/-- Model of one SQLite database/table pair: whether the database file
exists, the table columns reported by `PRAGMA table_info`, and the rows (a
`none` cell is SQL NULL).  Row order models the `ORDER BY ... DESC` result. -/
structure Db where
  dbExists : Bool
  columns : List String
  rows : List (List (Option String))

/-- Columns detected by the name-matching loop of `read_sqlite_log_rows`;
an `elif` chain in which a later matching column overwrites an earlier one. -/
structure DetectedCols where
  ts : Option String
  level : Option String
  msg : Option String
  txn : Option String

/-- The column-detection loop. -/
def detectCols (columns : List String) : DetectedCols :=
  columns.foldl
    (fun d col =>
      let cl := pyLower col
      if containsSub "timestamp" cl || containsSub "ts" cl || containsSub "time" cl then
        { d with ts := some col }
      else if containsSub "level" cl || containsSub "severity" cl || containsSub "log_level" cl then
        { d with level := some col }
      else if containsSub "message" cl || containsSub "msg" cl || containsSub "content" cl || containsSub "text" cl then
        { d with msg := some col }
      else if containsSub "transaction" cl || containsSub "txn" cl || containsSub "transactionid" cl then
        { d with txn := some col }
      else d)
    ⟨none, none, none, none⟩

/-- The `select_cols` list built from the detected columns plus the
remaining columns. -/
def selectCols (columns : List String) : List String :=
  let d := detectCols columns
  (match d.ts with | some c => [c ++ " as ts"] | none => []) ++
  (match d.level with | some c => [c ++ " as level"] | none => []) ++
  (match d.msg with | some c => [c ++ " as msg"] | none => []) ++
  (match d.txn with | some c => [c ++ " as transactionId"] | none => []) ++
  columns.filter (fun c =>
    !(d.ts == some c || d.level == some c || d.msg == some c || d.txn == some c))

/-- Characters after the first occurrence of `sep`, scanning left to
right; `none` when `sep` does not occur. -/
def dropAfterFirst (sep : List Char) : List Char → Option (List Char)
  | [] => none
  | c :: cs =>
    if listPrefixB sep (c :: cs) then some ((c :: cs).drop sep.length)
    else dropAfterFirst sep cs

/-- Characters after the last non-overlapping occurrence of `sep`, fuelled
by the input length; Python `s.split(sep)[-1]`. -/
def afterLastSub (sep : List Char) : Nat → List Char → List Char
  | 0, cs => cs
  | n + 1, cs =>
    match dropAfterFirst sep cs with
    | some rest => afterLastSub sep n rest
    | none => cs

/-- Python `col.split(' as ')[-1]`. -/
def colAlias (c : String) : String :=
  String.mk (afterLastSub " as ".data c.data.length c.data)

/-- The row formatting of the unreachable block at analyzer.py lines
217-227: `col_name=value` pairs joined by spaces, NULL cells skipped, an
all-NULL row producing no line. -/
def sqliteFormatRow (cols : List String) (row : List (Option String)) : Option String :=
  let parts := cols.enum.filterMap (fun ic =>
    match row.get? ic.1 with
    | some (some v) => some (colAlias ic.2 ++ "=" ++ v)
    | _ => none)
  if parts = [] then none else some (pyJoin " " parts)

/-- The output the dead code at analyzer.py lines 210-230 would produce. -/
def sqliteFormattedRows (db : Db) (limit : Nat) : List String :=
  (db.rows.take limit).filterMap (sqliteFormatRow (selectCols db.columns))

/-- Model of `read_sqlite_log_rows`.  After column detection, the
mis-indented `return []` at line 208 runs unconditionally (it is indented to
the body level, not under `if not select_cols:`), so the query and
formatting code at lines 210-230 is unreachable and every call returns the
empty list. -/
def readSqliteLogRows (db : Db) (table : String) (limit : Nat) : List String :=
  if !db.dbExists then []
  else if db.columns = [] then []
  else
    let sel := selectCols db.columns
    let _ := sel
    let _ := table
    let _ := limit
    []

/-! ## `_collect_recent_log_lines` (analyzer.py lines 236-321) -/

/-- The `sqlite_source` optional argument. -/
structure SqliteSource where
  db : Db
  table : String
  limit : Nat

/-- Python `os.path.isfile` on the modelled file system (false for a
missing or unreadable path). -/
def isRegB (fs : FS) (p : String) : Bool :=
  match fs p with
  | some fd => fd.isfile
  | none => false

/-- Existing regular files with their modification times; paths that are not
regular files or cannot be stat-ed are dropped. -/
def existingFiles (fs : FS) (paths : List String) : List (String × Int) :=
  paths.filterMap (fun p =>
    match fs p with
    | some fd => if fd.isfile then some (p, fd.mtime) else none
    | none => none)

/-- Python `files_with_time.sort(key=lambda t: t[1], reverse=True)`: stable
sort by descending mtime. -/
def sortByMtimeDesc (l : List (String × Int)) : List (String × Int) :=
  List.insertionSort (fun a b => b.2 ≤ a.2) l

/-- The per-file reading loop: tail window of at most `capF` bytes per file,
stopping before a file once the running decoded total has reached `capT`. -/
def collectLoop (fs : FS) (capT capF : Nat) :
    List (String × Int) → Nat → List String → List String
  | [], _, acc => acc
  | (p, _) :: rest, total, acc =>
    if capT ≤ total then acc
    else
      match fs p with
      | none => collectLoop fs capT capF rest total acc
      | some fd =>
        let size := fd.content.length
        let chunk := (fd.content.drop (size - capF)).take capF
        if chunk = [] then collectLoop fs capT capF rest total acc
        else
          collectLoop fs capT capF rest (total + chunk.length)
            (acc ++ pySplitlines (String.mk chunk))

/-- Model of `_collect_recent_log_lines`. -/
def collectRecentLogLines (fs : FS) (paths : List String) (capT capF : Nat)
    (sqlite : Option SqliteSource) : List String :=
  let collected := match sqlite with
    | some s => readSqliteLogRows s.db s.table s.limit
    | none => []
  if paths = [] ∨ capT = 0 ∨ capF = 0 then collected
  else
    collected ++
      collectLoop fs capT capF (sortByMtimeDesc (existingFiles fs paths)) 0 []

/-! ## `_extract_error_patterns` (analyzer.py lines 749-855) -/

/-- One entry of the `recent_warnings` sliding window. -/
structure WarnEntry where
  message : String
  category : String
  timestamp : String
deriving DecidableEq

/-- The error half of a temporal pattern. -/
structure ErrEntry where
  message : String
  error_code : String
  category : String
  timestamp : String
deriving DecidableEq

/-- One recorded warning-before-error sequence. -/
structure TemporalPattern where
  warning : WarnEntry
  error : ErrEntry
deriving DecidableEq

/-- The mutable state of the `_extract_error_patterns` loop: the result
dicts plus the `recent_warnings` sliding window. -/
structure EPState where
  error_codes : List (String × Nat)
  error_messages : List (String × Nat)
  error_categories : List (String × Nat)
  warning_messages : List (String × Nat)
  warning_categories : List (String × Nat)
  temporal_patterns : List TemporalPattern
  recent_warnings : List WarnEntry
deriving DecidableEq

/-- Initial `_extract_error_patterns` state. -/
def epInit : EPState := ⟨[], [], [], [], [], [], []⟩

/-- Processing of one line in `_extract_error_patterns`. -/
def epStep (st : EPState) (line : String) : EPState :=
  if pyStrip line = "" then st
  else if (pyStrip line).data.head? ≠ some '\x7b' then st
  else
    match jsonLoads line with
    | none => st
    | some flds =>
      let level := jLevel flds
      let category := jGetStr flds "category"
      let message := jGetStr flds "message"
      let error_code := jGetStr (jGetData flds) "errorCode"
      let timestamp := jGetStr flds "timestamp"
      if level = "ERROR" then
        let st1 := { st with
          error_codes :=
            if error_code ≠ "" then bump st.error_codes error_code else st.error_codes
          error_messages :=
            if message ≠ "" then bump st.error_messages message else st.error_messages
          error_categories :=
            if category ≠ "" then bump st.error_categories category else st.error_categories }
        if st1.recent_warnings ≠ [] then
          { st1 with temporal_patterns := st1.temporal_patterns ++
              [⟨st1.recent_warnings.getLastD ⟨"", "", ""⟩,
                ⟨message, error_code, category, timestamp⟩⟩] }
        else st1
      else if level = "WARN" then
        let st1 := { st with
          warning_messages :=
            if message ≠ "" then bump st.warning_messages message else st.warning_messages
          warning_categories :=
            if category ≠ "" then bump st.warning_categories category else st.warning_categories }
        let rw := st1.recent_warnings ++ [⟨message, category, timestamp⟩]
        { st1 with recent_warnings := if 5 < rw.length then rw.drop 1 else rw }
      else st

/-- The classification condition of the WARN branch of
`_extract_error_patterns`, as a partial accessor: the stripped line is
non-empty, starts with a brace, parses, and carries level `WARN`; the
returned entry is the one the WARN branch appends to the window. -/
def warnParse (line : String) : Option WarnEntry :=
  if pyStrip line = "" then none
  else if (pyStrip line).data.head? ≠ some '\x7b' then none
  else
    match jsonLoads line with
    | none => none
    | some flds =>
      if jLevel flds = "WARN" then
        some ⟨jGetStr flds "message", jGetStr flds "category",
              jGetStr flds "timestamp"⟩
      else none

/-- The returned `patterns` dict (the sliding window is local state). -/
structure ErrorPatterns where
  error_codes : List (String × Nat)
  error_messages : List (String × Nat)
  error_categories : List (String × Nat)
  warning_messages : List (String × Nat)
  warning_categories : List (String × Nat)
  temporal_patterns : List TemporalPattern
deriving DecidableEq

/-- Model of `_extract_error_patterns`. -/
def extractErrorPatterns (lines : List String) : ErrorPatterns :=
  let st := lines.foldl epStep epInit
  ⟨st.error_codes, st.error_messages, st.error_categories,
   st.warning_messages, st.warning_categories, st.temporal_patterns⟩

/-! ## `_get_file_statistics_streaming` (analyzer.py lines 382-483) -/

/-- Python `set.add` on an insertion-ordered duplicate-free list. -/
def setAdd (l : List String) (x : String) : List String :=
  if l.contains x then l else l ++ [x]

/-- Model of `_extract_transaction_id_from_entry`. -/
def extractTransactionIdFromEntry (flds : List (String × JVal)) : Option String :=
  let t := jGetStr (jGetData flds) "transactionId"
  if t ≠ "" then some t
  else
    let s := jGetStr flds "session_id"
    if s ≠ "" then some s else none

/-- Accumulator of the streaming statistics loop. -/
structure SSAcc where
  error_count : Nat
  warning_count : Nat
  total_lines : Nat
  error_codes : List (String × Nat)
  error_messages : List (String × Nat)
  error_categories : List (String × Nat)
  warning_messages : List (String × Nat)
  warning_categories : List (String × Nat)
  transaction_ids : List String

/-- Processing of one line of the streaming statistics pass. -/
def ssStep (st : SSAcc) (rawLine : String) : SSAcc :=
  let st := { st with total_lines := st.total_lines + 1 }
  let line := pyStrip rawLine
  if line = "" then st
  else if line.data.head? ≠ some '\x7b' then st
  else
    match jsonLoads line with
    | none => st
    | some flds =>
      let level := jLevel flds
      let category := jGetStr flds "category"
      let message := jGetStr flds "message"
      let error_code := jGetStr (jGetData flds) "errorCode"
      let st1 :=
        if level = "ERROR" then
          { st with
            error_count := st.error_count + 1
            error_codes :=
              if error_code ≠ "" then bump st.error_codes error_code else st.error_codes
            error_messages :=
              if message ≠ "" then bump st.error_messages message else st.error_messages
            error_categories :=
              if category ≠ "" then bump st.error_categories category else st.error_categories }
        else if level = "WARN" then
          { st with
            warning_count := st.warning_count + 1
            warning_messages :=
              if message ≠ "" then bump st.warning_messages message else st.warning_messages
            warning_categories :=
              if category ≠ "" then bump st.warning_categories category else st.warning_categories }
        else st
      match extractTransactionIdFromEntry flds with
      | some t => { st1 with transaction_ids := setAdd st1.transaction_ids t }
      | none => st1

/-- The finished streaming statistics, as returned to callers. -/
structure StreamStats where
  error_count : Nat
  warning_count : Nat
  error_codes : List (String × Nat)
  error_messages : List (String × Nat)
  error_categories : List (String × Nat)
  warning_messages : List (String × Nat)
  warning_categories : List (String × Nat)
  transaction_ids : List String
  file_size : Nat
  total_lines : Nat
  unique_transactions : Nat
deriving DecidableEq

/-- Model of `_get_file_statistics_streaming`: a missing file yields the
zero statistics; otherwise one line-by-line pass, then the exact unique
count is kept and the id list capped at 100 for display. -/
def getFileStatisticsStreaming (fs : FS) (p : String) : StreamStats :=
  match fs p with
  | none => ⟨0, 0, [], [], [], [], [], [], 0, 0, 0⟩
  | some fd =>
    let a := (pySplitlines (String.mk fd.content)).foldl ssStep ⟨0, 0, 0, [], [], [], [], [], []⟩
    ⟨a.error_count, a.warning_count, a.error_codes, a.error_messages,
     a.error_categories, a.warning_messages, a.warning_categories,
     a.transaction_ids.take 100, fd.size, a.total_lines, a.transaction_ids.length⟩

/-! ## `_extract_representative_samples` (analyzer.py lines 506-568) -/

/-- One extracted sample. -/
structure Sample where
  id : String
  timestamp : String
  level : String
  category : String
  message : String
  error_code : String
  order_total : String
  order_value : String
  raw_line : String
deriving DecidableEq

/-- Python `f.readline()`: one line including its newline, `""` at EOF. -/
def readLineFrom : List Char → String × List Char
  | [] => ("", [])
  | c :: rest =>
    if c = '\n' then (String.mk [c], rest)
    else
      let (s, r) := readLineFrom rest
      (String.mk (c :: s.data), r)

/-- The bounded lookahead at one sample position: up to `k` readline calls,
stopping at EOF, skipping blank/non-JSON/malformed/other-level lines, and
returning the first structured ERROR or WARN entry. -/
def scanForSample : Nat → List Char → Option Sample
  | 0, _ => none
  | k + 1, cs =>
    let (line, rest) := readLineFrom cs
    if line = "" then none
    else
      let l := pyStrip line
      if l = "" then scanForSample k rest
      else if l.data.head? ≠ some '\x7b' then scanForSample k rest
      else
        match jsonLoads l with
        | none => scanForSample k rest
        | some flds =>
          let level := pyUpper (jGetStr flds "level")
          if level = "ERROR" ∨ level = "WARN" then
            some ⟨jGetStr flds "id", jGetStr flds "timestamp", level,
                  jGetStr flds "category", jGetStr flds "message",
                  jGetStr (jGetData flds) "errorCode",
                  jGetStr (jGetData flds) "orderTotal",
                  jGetStr (jGetData flds) "orderValue", l⟩
          else scanForSample k rest

/-- The `max_samples * 2` byte offsets spread over `[0, size)`.  The source
computes `int((i / (max_samples * 2)) * file_size)` in floating point; the
exact rational value is used here (the float double rounding can shift an
offset by one byte, which no proved claim depends on). -/
def samplePositions (maxSamples size : Nat) : List Nat :=
  (List.range (maxSamples * 2)).map (fun i => i * size / (maxSamples * 2))

/-- The position loop of `_extract_representative_samples`. -/
def samplesLoop (content : List Char) (maxSamples : Nat) :
    List Nat → List Sample → List Sample
  | [], acc => acc
  | p :: ps, acc =>
    if maxSamples ≤ acc.length then acc
    else
      match scanForSample 10 (content.drop p) with
      | some s => samplesLoop content maxSamples ps (acc ++ [s])
      | none => samplesLoop content maxSamples ps acc

/-- Model of `_extract_representative_samples`. -/
def extractRepresentativeSamples (fs : FS) (p : String) (maxSamples : Nat) :
    List Sample :=
  match fs p with
  | none => []
  | some fd =>
    (samplesLoop fd.content maxSamples (samplePositions maxSamples fd.size) []).take
      maxSamples

/-! ## Module constants (analyzer.py lines 17-20) -/

/-- Declared cap on the number of scanned files; the constant is defined in
the source but referenced nowhere in the repository. -/
def MAX_FILES : Nat := 5

/-- Declared total byte cap. -/
def MAX_BYTES_TOTAL : Nat := 10 * 1024 * 1024

/-- Context lines kept around a hit in `_build_agent_snippets`. -/
def CONTEXT_LINES : Nat := 4

/-- Declared prompt character cap; the constant is defined in the source but
referenced nowhere in the repository. -/
def MAX_PROMPT_CHARS : Nat := 8000

/-! ## `_build_agent_snippets` (analyzer.py lines 898-1034) -/

/-- The `payment.*fail` alternative of the hit regex: `fail` after
`payment` on the same line (`.` does not cross a newline). -/
def paymentFailAux : List Char → Bool
  | [] => false
  | c :: rest =>
    (listPrefixB "payment".data (c :: rest) &&
      containsSubAux "fail".data (((c :: rest).drop 7).takeWhile (fun d => d ≠ '\n'))) ||
    paymentFailAux rest

/-- The hit regex
`error|exception|fail|timeout|warn|fatal|panic|declined|insufficient|payment.*fail`
with `re.IGNORECASE`, as a Boolean on the lowercased line. -/
def hitLine (ln : String) : Bool :=
  let l := pyLower ln
  containsSub "error" l || containsSub "exception" l || containsSub "fail" l ||
  containsSub "timeout" l || containsSub "warn" l || containsSub "fatal" l ||
  containsSub "panic" l || containsSub "declined" l ||
  containsSub "insufficient" l || paymentFailAux l.data

/-- Indices of non-empty lines matching the hit regex. -/
def hitIndices (lines : List String) : List Nat :=
  lines.enum.filterMap (fun p => if p.2 ≠ "" ∧ hitLine p.2 then some p.1 else none)

/-- Add one context window, merging it into the most recent window when
they overlap (the loop walks the hit indices most recent first). -/
def addWindow (n : Nat) (cov : List (Nat × Nat)) (i : Nat) : List (Nat × Nat) :=
  let s := i - CONTEXT_LINES
  let e := min n (i + CONTEXT_LINES + 1)
  match cov.getLast? with
  | none => [(s, e)]
  | some (ps, pe) =>
    if e ≤ ps ∨ pe ≤ s then cov ++ [(s, e)]
    else cov.dropLast ++ [(min ps s, max pe e)]

/-- The merged context windows, most recent first. -/
def coveredOf (lines : List String) (hits : List Nat) : List (Nat × Nat) :=
  hits.reverse.foldl (addWindow lines.length) []

/-- One error example collected from a hit line. -/
structure ErrExample where
  id : String
  timestamp : String
  category : String
  message : String
  error_code : String
  order_total : String
  raw_line : String
  isJson : Bool
deriving DecidableEq

/-- One warning example collected from a hit line. -/
structure WarnExample where
  id : String
  timestamp : String
  category : String
  message : String
  order_value : String
  estimated_time : String
  raw_line : String
  isJson : Bool
deriving DecidableEq

/-- Classification outcome of one hit line. -/
inductive ExClass where
  | err : ErrExample → ExClass
  | warn : WarnExample → ExClass
  | skip : ExClass

/-- The text fallback applied only when `json.loads` raises: plain
substring tests on the lowercased line.  A line classified neither as error
nor warning text contributes nothing. -/
def textFallbackClass (line : String) : ExClass :=
  let l := pyLower line
  if containsSub "error" l || containsSub "exception" l || containsSub "fail" l ||
      containsSub "fatal" l then
    ExClass.err ⟨"", "", "", "Non-JSON error line", "", "", line, false⟩
  else if containsSub "warn" l then
    ExClass.warn ⟨"", "", "", "Non-JSON warning line", "", "", line, false⟩
  else ExClass.skip

/-- Classify one hit line: structured ERROR and WARN entries become
examples, other parsed levels contribute nothing, a line that does not start
with a brace contributes nothing (the fallback sits in the `except` arm and
only a parse failure reaches it). -/
def classifyHitLine (line : String) : ExClass :=
  if (pyStrip line).data.head? = some '\x7b' then
    match jsonLoads line with
    | some flds =>
      let level := jLevel flds
      if level = "ERROR" then
        ExClass.err ⟨jGetStr flds "id", jGetStr flds "timestamp",
          jGetStr flds "category", jGetStr flds "message",
          jGetStr (jGetData flds) "errorCode",
          jGetStr (jGetData flds) "orderTotal", line, true⟩
      else if level = "WARN" then
        ExClass.warn ⟨jGetStr flds "id", jGetStr flds "timestamp",
          jGetStr flds "category", jGetStr flds "message",
          jGetStr (jGetData flds) "orderValue",
          jGetStr (jGetData flds) "estimatedTime", line, true⟩
      else ExClass.skip
    | none => textFallbackClass line
  else ExClass.skip

/-- Collect error and warning examples from the first 100 hit indices. -/
def classifyAll (lines : List String) (hits : List Nat) :
    List ErrExample × List WarnExample :=
  (hits.take 100).foldl
    (fun acc idx =>
      match classifyHitLine (lines.getD idx "") with
      | ExClass.err e => (acc.1 ++ [e], acc.2)
      | ExClass.warn w => (acc.1, acc.2 ++ [w])
      | ExClass.skip => acc)
    ([], [])

/-- Render one error example. -/
def errExampleLine (i : Nat) (e : ErrExample) : String :=
  if e.isJson ∧ e.error_code ≠ "" then
    "  Error " ++ toString i ++ ": ID=" ++ e.id ++ " | Code=" ++ e.error_code ++
    " | Category=" ++ e.category ++ " | Message=\x27" ++ e.message ++
    "\x27 | OrderTotal=" ++ e.order_total
  else
    "  Error " ++ toString i ++ ": " ++ e.raw_line

/-- Render one warning example. -/
def warnExampleLine (i : Nat) (w : WarnExample) : String :=
  if w.isJson ∧ w.order_value ≠ "" then
    "  Warning " ++ toString i ++ ": ID=" ++ w.id ++ " | Category=" ++ w.category ++
    " | Message=\x27" ++ w.message ++ "\x27 | OrderValue=" ++ w.order_value ++
    " | EstTime=" ++ w.estimated_time
  else
    "  Warning " ++ toString i ++ ": " ++ w.raw_line

/-- One rendered context window: header line, the window slice, a blank. -/
def windowPart (lines : List String) (i : Nat) (w : Nat × Nat) : List String :=
  ["\n--- Context Window " ++ toString i ++ " (around error) ---"] ++
  (lines.drop w.1).take (w.2 - w.1) ++ [""]

/-- The `parts` list assembled by `_build_agent_snippets` when hits exist. -/
def snippetParts (lines : List String) : List String :=
  let hits := hitIndices lines
  let ew := classifyAll lines hits
  let windows := coveredOf lines hits
  ["=== ACTUAL ERROR & WARNING LOGS ===", ""] ++
  (if ew.1 ≠ [] then
    ["ERROR EXAMPLES (" ++ toString ew.1.length ++ " found):"] ++
    (ew.1.take 20).enum.map (fun p => errExampleLine (p.1 + 1) p.2) ++ [""]
   else []) ++
  (if ew.2 ≠ [] then
    ["WARNING EXAMPLES (" ++ toString ew.2.length ++ " found):"] ++
    (ew.2.take 20).enum.map (fun p => warnExampleLine (p.1 + 1) p.2) ++ [""]
   else []) ++
  (if windows ≠ [] then
    ["=== ERROR CONTEXT WINDOWS ==="] ++
    ((windows.take 8).enum.map (fun p => windowPart lines (p.1 + 1) p.2)).flatten
   else [])

/-- The greedy whole-line emission loop: keep lines while the running total
(line length plus one per newline) stays within `max_chars`. -/
def emitGreedy (cap : Nat) : List String → Nat → List String
  | [], _ => []
  | p :: ps, used =>
    if cap < used + (p.length + 1) then []
    else p :: emitGreedy cap ps (used + (p.length + 1))

/-- The truncation marker appended when parts were dropped. -/
def truncMarker : String := "... [truncated]"

/-- Model of `_build_agent_snippets`. -/
def buildAgentSnippets (lines : List String) (max_chars : Nat) : String :=
  if lines = [] ∨ max_chars = 0 then ""
  else
    let hits := hitIndices lines
    if hits = [] then
      let recent := lines.drop (lines.length - CONTEXT_LINES * 6)
      let payment := recent.filter (fun ln =>
        let l := pyLower ln
        containsSub "payment" l || containsSub "checkout" l ||
        containsSub "cart" l || containsSub "order" l)
      if payment ≠ [] then
        pyTake (pyJoin "\n" (payment.drop (payment.length - 20))) max_chars
      else pyTake (pyJoin "\n" recent) max_chars
    else
      let parts := snippetParts lines
      let emitted := emitGreedy max_chars parts 0
      if emitted.length < parts.length then pyJoin "\n" (emitted ++ [truncMarker])
      else pyJoin "\n" emitted

/-! ## `build_pattern_agent_prompt` (analyzer.py lines 22-145) -/

/-- The rendered `SPECIFIC ERROR ANALYSIS` block. -/
def errorAnalysisText (ep : ErrorPatterns) : String :=
  "\nSPECIFIC ERROR ANALYSIS:\n" ++ eq30 ++ "\n" ++
  (if ep.error_codes ≠ [] then
    "Error Codes: " ++ pyDictRepr (sortByCountDesc ep.error_codes) ++ "\n" else "") ++
  (if ep.error_messages ≠ [] then
    "Error Messages: " ++ pyDictRepr (sortByCountDesc ep.error_messages) ++ "\n" else "") ++
  (if ep.error_categories ≠ [] then
    "Error Categories: " ++ pyDictRepr (sortByCountDesc ep.error_categories) ++ "\n" else "") ++
  (if ep.warning_messages ≠ [] then
    "Warning Messages: " ++ pyDictRepr (sortByCountDesc ep.warning_messages) ++ "\n" else "") ++
  (if ep.warning_categories ≠ [] then
    "Warning Categories: " ++ pyDictRepr (sortByCountDesc ep.warning_categories) ++ "\n" else "") ++
  (if ep.temporal_patterns ≠ [] then
    "Temporal Patterns: " ++ toString ep.temporal_patterns.length ++
      " warning-error sequences found\n" else "") ++
  "\n"

/-- Template text of the pattern-agent prompt before `{files_line}`. -/
def papPart1 : String :=
  "You are an expert log analyst. Analyze the ACTUAL ERROR AND WARNING LOGS below to identify specific patterns and root causes.\n\nLOG SUMMARY:\n- Files: "

/-- Template text between `{raw_snippet[:3000]}` and `{len(files_used)}`. -/
def papMid : String :=
  "\n\nANALYSIS TASK:\n=============\n" ++
  "1. PATTERNS: Look at the specific error analysis above and actual log entries. Identify:\n" ++
  "   - EXACT ERROR CODES and their frequency (e.g., PAY_001 appears X times)\n" ++
  "   - EXACT ERROR MESSAGES and their frequency (e.g., \"Payment processing failed\" appears X times)\n" ++
  "   - EXACT ERROR CATEGORIES and their frequency (e.g., PAYMENT category has X errors)\n" ++
  "   - TEMPORAL PATTERNS (e.g., warning always precedes error by X seconds)\n" ++
  "   - CONSISTENCY PATTERNS (e.g., all errors have same error code, all warnings have same message)\n\n" ++
  "2. ROOT CAUSES: From the specific error data above, determine:\n" ++
  "   - Why does the SAME error code appear repeatedly? (e.g., PAY_001 in 100% of errors)\n" ++
  "   - Why does the SAME error message appear repeatedly? (e.g., \"Card declined\" in all errors)\n" ++
  "   - Why do warnings always precede errors? (e.g., performance warning → payment failure)\n" ++
  "   - What specific technical issue causes this pattern?\n\n" ++
  "3. HIGH-RISK TRANSACTIONS: Identify which transactions are most problematic:\n" ++
  "   - Which transactions have the most errors?\n" ++
  "   - Which transactions show the warning→error pattern?\n" ++
  "   - Which transactions have the highest error frequency?\n\n" ++
  "4. NEXT ACTIONS: Based on the SPECIFIC error patterns found, recommend:\n" ++
  "   - Specific fixes for the EXACT error codes identified (e.g., fix PAY_001 handling)\n" ++
  "   - Specific fixes for the EXACT error messages (e.g., handle \"Card declined\" better)\n" ++
  "   - Specific fixes for the temporal patterns (e.g., prevent warning→error sequence)\n" ++
  "   - Code changes to address the specific patterns\n\n" ++
  "RESPONSE FORMAT:\n===============\nProvide your analysis in exactly this format:\n\n" ++
  "🤖 AI PATTERN AGENT ANALYSIS\n" ++ eq50 ++ "\n📁 Files: "

/-- Template text after the second `{top_kw_line}`. -/
def papTail : String :=
  "\n\n📋 PATTERNS\n" ++
  "  • [EXACT error patterns - e.g., \"PAY_001 error code appears in 100% of errors (X occurrences)\"]\n" ++
  "  • [EXACT message patterns - e.g., \"Payment processing failed\" message appears X times]\n" ++
  "  • [EXACT category patterns - e.g., \"All errors are in PAYMENT category\"]\n" ++
  "  • [Temporal patterns - e.g., \"Warning always precedes error by 1-2 seconds\"]\n\n" ++
  "🔍 ROOT CAUSES\n" ++
  "  • [Specific root causes from EXACT error data - e.g., \"PAY_001 indicates payment gateway integration issue\"]\n" ++
  "  • [Specific technical issues - e.g., \"All errors have same error code suggests single point of failure\"]\n\n" ++
  "⚠️ HIGH-RISK TRANSACTIONS\n" ++
  "  • [Specific high-risk transactions with EXACT error counts and patterns]\n\n" ++
  "🎯 NEXT ACTIONS\n" ++
  "  • [Specific technical fixes for EXACT error codes - e.g., \"Fix PAY_001 error handling\"]\n" ++
  "  • [Specific fixes for EXACT patterns - e.g., \"Prevent warning→error sequence\"]\n\n" ++
  "REFERENCE THE EXACT ERROR CODES, MESSAGES, AND PATTERNS FROM THE DATA ABOVE. Be specific and accurate."

/-- The `(-count, key)` keyword line used in several renderings,
`", ".join(f"k(v)")` over the first `n` sorted items. -/
def topKwLine (n : Nat) (kw : List (String × Nat)) : String :=
  if kw ≠ [] then pyJoin ", " (((sortByCountKey kw).take n).map fmtKv)
  else "None detected"

/-- Model of `build_pattern_agent_prompt`.  The result embeds only the
first 3000 snippet characters but has no overall length cap. -/
def buildPatternAgentPrompt (files_used : List String)
    (top_keywords : List (String × Nat)) (tx_groups : List (String × List String))
    (raw_snippet : String) (error_patterns : Option ErrorPatterns) : String :=
  let files_line := if files_used ≠ [] then pyJoin ", " files_used else "(none)"
  let tx_count := tx_groups.length
  let top_kw_line := topKwLine 10 top_keywords
  let error_analysis := match error_patterns with
    | some ep => errorAnalysisText ep
    | none => ""
  papPart1 ++ files_line ++ "\n- Transactions: " ++ toString tx_count ++
  "\n- Top Issues: " ++ top_kw_line ++ "\n\n" ++ error_analysis ++
  "ACTUAL ERROR & WARNING LOGS:\n" ++ pyTake raw_snippet 3000 ++ papMid ++
  toString files_used.length ++ " file(s) analyzed\n📊 Transactions: " ++
  toString tx_count ++ " found\n🔍 Top Keywords: " ++ top_kw_line ++ papTail

/-! ## `_format_top_keywords` and `_build_sections_from_stats`
(analyzer.py lines 674-747) -/

/-- Model of `_format_top_keywords`. -/
def formatTopKeywords (st : StreamStats) : String :=
  let kws :=
    (if 0 < st.error_count then ["error(" ++ toString st.error_count ++ ")"] else []) ++
    (if 0 < st.warning_count then ["warn(" ++ toString st.warning_count ++ ")"] else []) ++
    ((sortByCountDesc st.error_codes).take 3).map fmtKv ++
    ((sortByCountDesc st.error_categories).take 2).map
      (fun p => pyLower p.1 ++ "(" ++ toString p.2 ++ ")")
  pyJoin ", " (kws.take 8)

/-- Model of `_build_sections_from_stats`: the four deterministic section
texts (patterns, root causes, high risk, next actions). -/
def buildSectionsFromStats (st : StreamStats) : String × String × String × String :=
  let patt :=
    ((sortByCountDesc st.error_codes).take 3).map
      (fun p => p.1 ++ " appears " ++ pyThousands p.2 ++ " times") ++
    ((sortByCountDesc st.error_messages).take 2).map
      (fun p => "\"" ++ p.1 ++ "\" seen " ++ pyThousands p.2 ++ " times") ++
    ((sortByCountDesc st.error_categories).take 2).map
      (fun p => p.1 ++ " category has " ++ pyThousands p.2 ++ " errors")
  let patt := if patt = [] then ["(none)"] else patt
  let top_code := match (sortByCountDesc st.error_codes).head? with
    | some p => if p.1 ≠ "" then some p.1 else none
    | none => none
  let root :=
    (match top_code with
     | some c => ["High concentration of " ++ c ++ " suggests single failure mode"]
     | none => []) ++
    (if 0 < st.warning_count ∧ 0 < st.error_count then
      ["Warnings alongside errors indicate potential upstream performance/timeout issues"]
     else [])
  let root := if root = [] then ["(none)"] else root
  let risk :=
    if 0 < st.unique_transactions ∧ 0 < st.error_count then
      ["Transactions with repeated errors (same code/message) are high-risk"]
    else []
  let risk := if risk = [] then ["(none)"] else risk
  let nexts :=
    (match top_code with
     | some _ => ["Implement guardrails/retries around top error code(s)"]
     | none => []) ++
    (if 0 < st.warning_count then
      ["Investigate top warnings to prevent escalation into errors"] else []) ++
    ["Add targeted logs around payment/checkout paths to isolate cause"]
  (pyJoin "\n  • " patt, pyJoin "\n  • " root, pyJoin "\n  • " risk,
   pyJoin "\n  • " nexts)

/-! ## `_build_streaming_llm_prompt` (analyzer.py lines 570-672) -/

/-- Render one sample line of the `REPRESENTATIVE SAMPLES` block. -/
def sampleLine (i : Nat) (s : Sample) : String :=
  if s.level = "ERROR" then
    "  Error " ++ toString i ++ ": ID=" ++ s.id ++ " | Code=" ++ s.error_code ++
    " | Category=" ++ s.category ++ " | Message=\x27" ++ s.message ++ "\x27\n"
  else if s.level = "WARN" then
    "  Warning " ++ toString i ++ ": ID=" ++ s.id ++ " | Category=" ++ s.category ++
    " | Message=\x27" ++ s.message ++ "\x27\n"
  else ""

/-- The accumulated `samples_str`. -/
def samplesStr (samples : List Sample) : String :=
  pyJoin "" ((samples.take 10).enum.map (fun p => sampleLine (p.1 + 1) p.2))

/-- The streaming-prompt analysis-task and response-format tail before the
embedded transaction display. -/
def spMid : String :=
  "\n\nANALYSIS TASK:\n" ++
  "1. PATTERNS: Based on the EXACT statistics above, identify:\n" ++
  "   - What error codes appear and their frequency\n" ++
  "   - What error messages repeat and their frequency\n" ++
  "   - What warning patterns exist\n" ++
  "   - Temporal or systematic patterns\n\n" ++
  "2. ROOT CAUSES: From the specific error data, determine:\n" ++
  "   - Why the same error code appears repeatedly\n" ++
  "   - Why the same error message appears repeatedly\n" ++
  "   - What technical issues cause these patterns\n\n" ++
  "3. HIGH-RISK TRANSACTIONS: Identify:\n" ++
  "   - Which transactions are most problematic\n" ++
  "   - Transaction patterns that lead to errors\n" ++
  "   - Risk factors based on the data\n\n" ++
  "4. NEXT ACTIONS: Recommend specific fixes:\n" ++
  "   - For the exact error codes identified\n" ++
  "   - For the specific error patterns found\n" ++
  "   - For the warning patterns that precede errors\n\n" ++
  "RESPONSE FORMAT:\nProvide your analysis in exactly this format:\n\n" ++
  "🤖 AI PATTERN AGENT ANALYSIS\n" ++ eq50 ++
  "\n📁 Files: 1 file(s) analyzed\n📊 Transactions: "

/-- The streaming-prompt tail after `{_format_top_keywords(stats)}`. -/
def spTail : String :=
  "\n\n📋 PATTERNS\n" ++
  "  • [EXACT error patterns from statistics above]\n" ++
  "  • [EXACT warning patterns from statistics above]\n" ++
  "  • [Temporal or systematic patterns identified]\n\n" ++
  "🔍 ROOT CAUSES\n" ++
  "  • [Specific root causes from EXACT error data]\n" ++
  "  • [Technical issues causing the patterns]\n\n" ++
  "⚠️ HIGH-RISK TRANSACTIONS\n" ++
  "  • [High-risk transactions with specific counts and patterns]\n\n" ++
  "🎯 NEXT ACTIONS\n" ++
  "  • [Specific technical fixes for EXACT error codes]\n" ++
  "  • [Specific fixes for EXACT patterns found]\n\n" ++
  "REFERENCE THE EXACT COUNTS AND PATTERNS FROM THE STATISTICS ABOVE."

/-- Model of `_build_streaming_llm_prompt`: the rendered text hard-sliced
to its first 8000 characters, `prompt[:8000]`. -/
def buildStreamingLlmPrompt (file_path : String) (st : StreamStats)
    (samples : List Sample) : String :=
  let file_name := pyBasename file_path
  let error_codes_str := pyJoin ", " (((sortByCountDesc st.error_codes).take 5).map fmtKv)
  let error_messages_str := pyJoin ", "
    (((sortByCountDesc st.error_messages).take 3).map
      (fun p => "\"" ++ p.1 ++ "\"(" ++ toString p.2 ++ ")"))
  let warning_messages_str := pyJoin ", "
    (((sortByCountDesc st.warning_messages).take 3).map
      (fun p => "\"" ++ p.1 ++ "\"(" ++ toString p.2 ++ ")"))
  let tx_display := pyThousands st.unique_transactions
  let prompt :=
    "You are an expert log analyst. Analyze the COMPLETE FILE STATISTICS below to identify patterns and root causes.\n\n" ++
    "FILE ANALYSIS SUMMARY:\n- File: " ++ file_name ++ " (" ++ fmtMb1 st.file_size ++
    "MB)\n- Total Lines Processed: " ++ pyThousands st.total_lines ++
    "\n- Total Errors: " ++ pyThousands st.error_count ++
    "\n- Total Warnings: " ++ pyThousands st.warning_count ++
    "\n- Unique Transactions: " ++ tx_display ++
    "\n\nEXACT ERROR ANALYSIS:\n- Error Codes: " ++ error_codes_str ++
    "\n- Error Messages: " ++ error_messages_str ++
    "\n- Error Categories: " ++ pyDictRepr (sortByCountDesc st.error_categories) ++
    "\n\nEXACT WARNING ANALYSIS:\n- Warning Messages: " ++ warning_messages_str ++
    "\n- Warning Categories: " ++ pyDictRepr (sortByCountDesc st.warning_categories) ++
    "\n\nREPRESENTATIVE SAMPLES:\n" ++ samplesStr samples ++ spMid ++
    pyThousands st.unique_transactions ++ " found\n🔍 Top Keywords: " ++
    formatTopKeywords st ++ spTail
  pyTake prompt 8000

/-! ## Model collaborator oracle and result rendering
(analyzer.py lines 1061-1365) -/

/-- A collaborator reply: a structured record or an opaque string.  A call
that raises is the `Except.error` of the oracle. -/
inductive LlmResp where
  | structured : List (String × String) → LlmResp
  | freeform : String → LlmResp

/-- The model-server collaborator: prompt in, reply or failure out. -/
abbrev Llm := String → Except Unit LlmResp

/-- Python `response.get(k)` on the structured reply. -/
def respGet (d : List (String × String)) (k : String) : Option String :=
  (d.reverse.find? (fun p => p.1 == k)).map Prod.snd

/-- Python `response.get(k) or fallback`: absent or falsy picks the
fallback. -/
def orFalsy (o : Option String) (dflt : String) : String :=
  match o with
  | some s => if s = "" then dflt else s
  | none => dflt

/-- Python `response.get(k, default)`: only an absent key picks the
default. -/
def getOrDefault (d : List (String × String)) (k dflt : String) : String :=
  match respGet d k with
  | some s => s
  | none => dflt

/-- Model of `_get_empty_analysis` (also the identical no-files text of
`_run_pattern_agent_regular`, lines 1256-1272). -/
def getEmptyAnalysis : String :=
  "🤖 AI PATTERN AGENT ANALYSIS\n" ++ eq50 ++
  "\n📁 Files: No files selected\n📊 Transactions: 0 found\n🔍 Top Keywords: None detected\n\n" ++
  "📋 PATTERNS\n  • No data to analyze\n\n" ++
  "🔍 ROOT CAUSES\n  • No data to analyze\n\n" ++
  "⚠️ HIGH-RISK TRANSACTIONS\n  • No data to analyze\n\n" ++
  "🎯 NEXT ACTIONS\n  • Select log files to analyze"

/-- The streaming result for a missing file (lines 1075-1092). -/
def streamingNotFoundResult : String :=
  "🤖 AI PATTERN AGENT ANALYSIS\n" ++ eq50 ++
  "\n📁 Files: File not found\n📊 Transactions: 0 found\n🔍 Top Keywords: None detected\n\n" ++
  "📋 PATTERNS\n  • No file found to analyze\n\n" ++
  "🔍 ROOT CAUSES\n  • No file found to analyze\n\n" ++
  "⚠️ HIGH-RISK TRANSACTIONS\n  • No file found to analyze\n\n" ++
  "🎯 NEXT ACTIONS\n  • Check file path and permissions"

/-- The streaming result rendered around the four section texts
(lines 1124-1140). -/
def streamingSuccessResult (file_path : String) (st : StreamStats)
    (patt root risk next_ : String) : String :=
  "🤖 AI PATTERN AGENT ANALYSIS\n" ++ eq50 ++
  "\n📁 Files: 1 file(s) analyzed (" ++ pyBasename file_path ++
  ")\n📊 Transactions: " ++ pyThousands st.unique_transactions ++
  " found\n🔍 Top Keywords: " ++ formatTopKeywords st ++
  "\n\n📋 PATTERNS\n  • " ++ patt ++
  "\n\n🔍 ROOT CAUSES\n  • " ++ root ++
  "\n\n⚠️ HIGH-RISK TRANSACTIONS\n  • " ++ risk ++
  "\n\n🎯 NEXT ACTIONS\n  • " ++ next_

/-- The hard-coded streaming fallback rendered when the collaborator call
raises (lines 1157-1184); its section prose names PAY_001 and PAYMENT
whatever the statistics hold, only the embedded counts being local. -/
def streamingFallbackResult (file_path : String) (st : StreamStats) : String :=
  "🤖 AI PATTERN AGENT ANALYSIS\n" ++ eq50 ++
  "\n📁 Files: 1 file(s) analyzed (" ++ pyBasename file_path ++
  ")\n📊 Transactions: " ++ pyThousands st.unique_transactions ++
  " found\n🔍 Top Keywords: " ++ formatTopKeywords st ++
  "\n\n📋 PATTERNS\n  • PAY_001 error code appears in 100% of errors (" ++
  pyThousands st.error_count ++ " occurrences)\n  • \"Payment processing failed\" message appears " ++
  pyThousands st.error_count ++ " times\n  • All errors are in PAYMENT category (" ++
  pyThousands st.error_count ++ " errors)\n  • Performance warnings appear " ++
  pyThousands st.warning_count ++ " times\n\n🔍 ROOT CAUSES\n" ++
  "  • PAY_001 indicates payment gateway integration issue\n" ++
  "  • Same error code suggests single point of failure\n" ++
  "  • High error count (" ++ pyThousands st.error_count ++
  ") indicates systematic problem\n\n⚠️ HIGH-RISK TRANSACTIONS\n  • " ++
  pyThousands st.unique_transactions ++ " unique transactions found\n" ++
  "  • All transactions affected by PAY_001 payment errors\n\n🎯 NEXT ACTIONS\n" ++
  "  • Fix PAY_001 error handling to resolve payment gateway integration\n" ++
  "  • Implement retry logic for payment processing failures\n" ++
  "  • Review performance warnings to prevent error escalation\n" ++
  "  • Add monitoring for high-risk transaction patterns\n\n" ++
  "_Note: Model unavailable — analysis based on accurate file statistics._"

/-- Model of `run_pattern_agent_streaming`.  The second component lists the
prompts sent to the collaborator.  Receipt writing is an external sink and
is not modelled. -/
def runPatternAgentStreaming (fs : FS) (llm : Llm) (file_path : String) :
    String × List String :=
  match fs file_path with
  | none => (streamingNotFoundResult, [])
  | some _ =>
    let stats := getFileStatisticsStreaming fs file_path
    let samples := extractRepresentativeSamples fs file_path 50
    let prompt := buildStreamingLlmPrompt file_path stats samples
    match llm prompt with
    | Except.ok resp =>
      let fb := buildSectionsFromStats stats
      let texts := match resp with
        | LlmResp.structured d =>
          (orFalsy (respGet d "patterns") fb.1,
           orFalsy (respGet d "root_causes") fb.2.1,
           orFalsy (respGet d "high_risk_transactions") fb.2.2.1,
           orFalsy (respGet d "next_actions") fb.2.2.2)
        | LlmResp.freeform _ => fb
      (streamingSuccessResult file_path stats texts.1 texts.2.1 texts.2.2.1
        texts.2.2.2, [prompt])
    | Except.error _ => (streamingFallbackResult file_path stats, [prompt])

/-- The regular-path result when no lines were collected (lines 1279-1297). -/
def noLogDataResult (nfiles : Nat) : String :=
  "🤖 AI PATTERN AGENT ANALYSIS\n" ++ eq50 ++
  "\n📁 Files: " ++ toString nfiles ++
  " file(s) analyzed\n📊 Transactions: 0 found\n🔍 Top Keywords: None detected\n\n" ++
  "📋 PATTERNS\n  • No log data found\n\n" ++
  "🔍 ROOT CAUSES\n  • No log data found\n\n" ++
  "⚠️ HIGH-RISK TRANSACTIONS\n  • No log data found\n\n" ++
  "🎯 NEXT ACTIONS\n  • Check log file format and content"

/-- The regular-path fallback rendered when the collaborator call raises
(lines 1312-1330): fixed `Analysis unavailable` section bodies under the
locally computed header counts. -/
def regularFallbackResult (nfiles ntx : Nat) (kw : List (String × Nat)) : String :=
  "🤖 AI PATTERN AGENT ANALYSIS\n" ++ eq50 ++
  "\n📁 Files: " ++ toString nfiles ++ " file(s) analyzed\n📊 Transactions: " ++
  toString ntx ++ " found\n🔍 Top Keywords: " ++ topKwLine 5 kw ++
  "\n\n📋 PATTERNS\n  • Analysis unavailable\n\n" ++
  "🔍 ROOT CAUSES\n  • Analysis unavailable\n\n" ++
  "⚠️ HIGH-RISK TRANSACTIONS\n  • Analysis unavailable\n\n" ++
  "🎯 NEXT ACTIONS\n  • Analysis unavailable\n\n" ++
  "_Note: model unavailable — fallback summary shown._"

/-- The regular-path result for a structured reply (lines 1337-1353). -/
def regularDictResult (nfiles ntx : Nat) (kw : List (String × Nat))
    (d : List (String × String)) : String :=
  "🤖 AI PATTERN AGENT ANALYSIS\n" ++ eq50 ++
  "\n📁 Files: " ++ toString nfiles ++ " file(s) analyzed\n📊 Transactions: " ++
  toString ntx ++ " found\n🔍 Top Keywords: " ++ topKwLine 5 kw ++
  "\n\n📋 PATTERNS\n  • " ++ getOrDefault d "patterns" "Analysis unavailable" ++
  "\n\n🔍 ROOT CAUSES\n  • " ++ getOrDefault d "root_causes" "Analysis unavailable" ++
  "\n\n⚠️ HIGH-RISK TRANSACTIONS\n  • " ++
  getOrDefault d "high_risk_transactions" "Analysis unavailable" ++
  "\n\n🎯 NEXT ACTIONS\n  • " ++ getOrDefault d "next_actions" "Analysis unavailable"

/-- The regular-path result for an opaque string reply (lines 1354-1360). -/
def regularMarkdownResult (s : String) : String :=
  if listPrefixB "🤖 AI PATTERN AGENT ANALYSIS".data s.data then s
  else "🤖 AI PATTERN AGENT ANALYSIS\n" ++ eq50 ++ "\n" ++ s

/-- Model of `_run_pattern_agent_regular`. -/
def runPatternAgentRegular (fs : FS) (llm : Llm) (log_files : List String)
    (capT capF snipCap : Nat) : String × List String :=
  if log_files = [] then (getEmptyAnalysis, [])
  else
    let lines := collectRecentLogLines fs log_files capT capF none
    if lines = [] then (noLogDataResult log_files.length, [])
    else
      let tx := groupByTransaction lines
      let kw := countKeywords lines
      let ep := extractErrorPatterns lines
      let snippet := buildAgentSnippets lines snipCap
      let prompt := buildPatternAgentPrompt log_files kw tx snippet (some ep)
      match llm prompt with
      | Except.error _ => (regularFallbackResult log_files.length tx.length kw, [prompt])
      | Except.ok (LlmResp.structured d) =>
        (regularDictResult log_files.length tx.length kw d, [prompt])
      | Except.ok (LlmResp.freeform s) => (regularMarkdownResult s, [prompt])

/-- Model of `run_pattern_agent_once`: an empty file list yields the EMPTY
message with no collaborator call; a first file whose metadata size exceeds
100 MiB (the float comparison `size/(1024*1024) > 100` is exact, division
by a power of two being exact) routes to the streaming path on that file
alone; everything else goes to the regular path. -/
def runPatternAgentOnce (fs : FS) (llm : Llm) (log_files : List String)
    (capT capF snipCap : Nat) : String × List String :=
  match log_files with
  | [] => (getEmptyAnalysis, [])
  | f :: _ =>
    let streaming := match fs f with
      | some fd => decide (100 * 1048576 < fd.size)
      | none => false
    if streaming then runPatternAgentStreaming fs llm f
    else runPatternAgentRegular fs llm log_files capT capF snipCap

/-! ## Concrete inputs used when evaluating the claims -/

/-- Sum of rendered line lengths of a collected line list. -/
def sumLens (ls : List String) : Nat :=
  (ls.map String.length).sum

/-- The structured scenario line of spec property 8. -/
def c1Line : String :=
  "\x7b\"level\":\"ERROR\",\"category\":\"PAYMENT\",\"message\":\"Card declined\",\"data\":\x7b\"errorCode\":\"PAY_001\"\x7d\x7d"

/-- The object `json.loads` produces for the scenario line. -/
def c1Fields : List (String × JVal) :=
  [("level", JVal.str "ERROR"), ("category", JVal.str "PAYMENT"),
   ("message", JVal.str "Card declined"),
   ("data", JVal.obj [("errorCode", JVal.str "PAY_001")])]

/-- The scenario line repeated 100 times. -/
def c1Lines : List String := List.replicate 100 c1Line

/-- The scenario file: the 100 lines joined by newlines. -/
def c1Content : String := pyJoin "\n" c1Lines

/-- Path of the scenario file. -/
def c1Path : String := "/logs/app.log"

/-- File data of the scenario file (9599 bytes). -/
def c1FD : FileData := ⟨true, 5, 9599, c1Content.data⟩

/-- File system holding only the scenario file. -/
def c1FS : FS := fun p => if p = c1Path then some c1FD else none

/-- The collaborator forced to fail: every call raises. -/
def llmFail : Llm := fun _ => Except.error ()

/-- The scenario result: the regular path at its default caps with the
collaborator forced to fail. -/
def c1Result : String :=
  (runPatternAgentRegular c1FS llmFail [c1Path] 5000000 1000000 8000).1

/-- Streaming statistics with error codes `A` and `B` inserted in that
order (two errors, equal counts). -/
def c2s1 : StreamStats := ⟨2, 0, [("A", 1), ("B", 1)], [], [], [], [], [], 0, 2, 0⟩

/-- The same statistics with the two codes inserted in the other order. -/
def c2s2 : StreamStats := ⟨2, 0, [("B", 1), ("A", 1)], [], [], [], [], [], 0, 2, 0⟩

/-- A 9000-character error message. -/
def c3BigMsg : String := String.mk (List.replicate 9000 'a')

/-- Error patterns holding the long message once. -/
def c3Patterns : ErrorPatterns := ⟨[], [(c3BigMsg, 1)], [], [], [], []⟩

/-- The rendered regular-path prompt over those patterns. -/
def c3Prompt : String := buildPatternAgentPrompt ["app.log"] [] [] "" (some c3Patterns)

/-- A one-line input with an error hit, for the snippet-path witness. -/
def c3Lines : List String := ["ERROR: payment failed"]

/-- All-zero streaming statistics. -/
def c3Stats0 : StreamStats := ⟨0, 0, [], [], [], [], [], [], 0, 0, 0⟩

/-- A structured WARN line. -/
def c4WarnLine : String :=
  "\x7b\"level\":\"WARN\",\"category\":\"PERF\",\"message\":\"slow\",\"timestamp\":\"t6\"\x7d"

/-- The window entry of that WARN line. -/
def c4W : WarnEntry := ⟨"slow", "PERF", "t6"⟩

/-- A scan state whose window already holds five warnings. -/
def c4St5 : EPState :=
  ⟨[], [], [], [], [], [],
   [⟨"m1", "c", "t1"⟩, ⟨"m2", "c", "t2"⟩, ⟨"m3", "c", "t3"⟩,
    ⟨"m4", "c", "t4"⟩, ⟨"m5", "c", "t5"⟩]⟩

/-- A one-line file holding a structured WARN entry. -/
def c5Content : String :=
  "\x7b\"level\":\"WARN\",\"category\":\"PERF\",\"message\":\"slow query\"\x7d"

/-- Its file data. -/
def c5FD : FileData := ⟨true, 0, 55, c5Content.data⟩

/-- File system holding only that file. -/
def c5FS : FS := fun p => if p = "f.log" then some c5FD else none

/-- The sample the sampler extracts from it. -/
def c5Sample : Sample := ⟨"", "", "WARN", "PERF", "slow query", "", "", "", c5Content⟩

/-- Six tiny single-line files with increasing modification times. -/
def c7FS : FS := fun p =>
  if p = "p1" then some ⟨true, 1, 2, "a1".data⟩
  else if p = "p2" then some ⟨true, 2, 2, "a2".data⟩
  else if p = "p3" then some ⟨true, 3, 2, "a3".data⟩
  else if p = "p4" then some ⟨true, 4, 2, "a4".data⟩
  else if p = "p5" then some ⟨true, 5, 2, "a5".data⟩
  else if p = "p6" then some ⟨true, 6, 2, "a6".data⟩
  else none

/-- The six candidate paths. -/
def c7Paths : List String := ["p1", "p2", "p3", "p4", "p5", "p6"]

/-- An existing table with detectable columns and one row. -/
def c9Db : Db := ⟨true, ["ts", "level", "msg"], [[some "t1", some "ERROR", some "boom"]]⟩

/-- Metadata of a 200 MiB file. -/
def c10FD : FileData := ⟨true, 0, 209715200, []⟩

/-- File system holding only that large file. -/
def c10FS : FS := fun p => if p = "big.log" then some c10FD else none

/-! ## Helper lemmas -/

theorem strMkData (s : String) : String.mk s.data = s := by
  obtain ⟨d⟩ := s
  rfl

theorem scanForSample_level (k : Nat) :
    ∀ (cs : List Char) (s : Sample), scanForSample k cs = some s →
      s.level = "ERROR" ∨ s.level = "WARN" := by
  induction k with
  | zero => intro cs s h; simp [scanForSample] at h
  | succ k ih =>
    intro cs s h
    unfold scanForSample at h
    dsimp only at h
    split at h
    · exact absurd h (by simp)
    · split at h
      · exact ih _ s h
      · split at h
        · exact ih _ s h
        · split at h
          · exact ih _ s h
          · split at h
            · rename_i hlev
              have h2 := Option.some.inj h
              subst h2
              exact hlev
            · exact ih _ s h

theorem samplesLoop_level (content : List Char) (N : Nat) :
    ∀ (ps : List Nat) (acc : List Sample),
      (∀ s ∈ acc, s.level = "ERROR" ∨ s.level = "WARN") →
      ∀ s ∈ samplesLoop content N ps acc, s.level = "ERROR" ∨ s.level = "WARN" := by
  intro ps
  induction ps with
  | nil => intro acc hacc s hs; exact hacc s hs
  | cons p ps ih =>
    intro acc hacc s hs
    unfold samplesLoop at hs
    split at hs
    · exact hacc s hs
    · split at hs
      · rename_i s0 hscan
        refine ih _ ?_ s hs
        intro t ht
        rcases List.mem_append.1 ht with h1 | h2
        · exact hacc t h1
        · rcases List.mem_singleton.1 h2 with rfl
          exact scanForSample_level 10 _ t hscan
      · exact ih _ hacc s hs

theorem epStep_window_le (st : EPState) (line : String)
    (h : st.recent_warnings.length ≤ 5) :
    (epStep st line).recent_warnings.length ≤ 5 := by
  unfold epStep
  split
  · exact h
  · split
    · exact h
    · split
      · exact h
      · dsimp only
        split
        · split
          · exact h
          · exact h
        · split
          · dsimp only
            split
            · rename_i hlen
              simp only [List.length_drop, List.length_append,
                List.length_singleton] at hlen ⊢
              omega
            · rename_i hlen
              simp only [List.length_append, List.length_singleton] at hlen ⊢
              omega
          · exact h

theorem epFold_window_le (lines : List String) :
    ((lines.foldl epStep epInit).recent_warnings).length ≤ 5 := by
  suffices h : ∀ st : EPState, st.recent_warnings.length ≤ 5 →
      ((lines.foldl epStep st).recent_warnings).length ≤ 5 by
    exact h epInit (by simp [epInit])
  induction lines with
  | nil => intro st hst; exact hst
  | cons l ls ih =>
    intro st hst
    exact ih (epStep st l) (epStep_window_le st l hst)

theorem epStep_evict (st : EPState) (line : String) (w : WarnEntry)
    (h5 : st.recent_warnings.length = 5) (hw : warnParse line = some w) :
    (epStep st line).recent_warnings = st.recent_warnings.drop 1 ++ [w] := by
  unfold warnParse at hw
  split at hw
  · exact absurd hw (by simp)
  · split at hw
    · exact absurd hw (by simp)
    · rename_i h1 h2
      unfold epStep
      rw [if_neg h1, if_neg h2]
      cases hj : jsonLoads line with
      | none => rw [hj] at hw; exact absurd hw (by simp)
      | some flds =>
        rw [hj] at hw
        dsimp only at hw ⊢
        split at hw
        · rename_i hlev
          have hww := Option.some.inj hw
          rw [if_neg (by rw [hlev]; decide), if_pos hlev]
          dsimp only
          rw [if_pos (by simp [List.length_append, h5])]
          rw [List.drop_append_of_le_length (by omega), hww]
        · exact absurd hw (by simp)

theorem lookupGroup_cons (a : String) (b : List String)
    (t : List (String × List String)) (k : String) :
    lookupGroup ((a, b) :: t) k = if a == k then b else lookupGroup t k := by
  by_cases h : a == k <;> simp [lookupGroup, List.find?_cons, h]

theorem lookupGroup_update (g : List (String × List String)) (k k2 : String)
    (ln : String) :
    lookupGroup (updateGroups g k ln) k2 =
      if k2 = k then lookupGroup g k2 ++ [ln] else lookupGroup g k2 := by
  induction g with
  | nil =>
    by_cases h : k2 = k
    · subst h; simp [updateGroups, lookupGroup]
    · have hne : (k == k2) = false := by
        simp only [beq_eq_false_iff_ne, ne_eq]
        exact fun hh => h hh.symm
      simp [updateGroups, lookupGroup, List.find?_cons, hne, h]
  | cons p ps ih =>
    unfold updateGroups
    by_cases hpk : p.1 == k
    · rw [if_pos hpk]
      rw [lookupGroup_cons]
      by_cases h2 : k2 = k
      · subst h2
        rw [if_pos (by simpa using hpk), if_pos rfl]
        have hp : p = (p.1, p.2) := rfl
        rw [hp, lookupGroup_cons, if_pos hpk]
      · rw [if_neg h2]
        have hne : ¬ p.1 == k2 := by
          simp only [beq_iff_eq] at hpk ⊢
          rw [hpk]
          exact fun hh => h2 hh.symm
        rw [if_neg hne]
        have hp : p = (p.1, p.2) := rfl
        conv_rhs => rw [hp, lookupGroup_cons, if_neg hne]
    · rw [if_neg hpk]
      have hp : p = (p.1, p.2) := rfl
      rw [hp, lookupGroup_cons, lookupGroup_cons, ih]
      by_cases h2 : p.1 == k2
      · rw [if_pos h2, if_pos h2]
        have : ¬ k2 = k := by
          simp only [beq_iff_eq] at h2 hpk
          rw [← h2]
          exact fun hh => hpk hh
        rw [if_neg this]
      · rw [if_neg h2, if_neg h2]

theorem groupBy_lookup (lines : List String) (k : String) :
    lookupGroup (groupByTransaction lines) k =
      lines.filter (fun ln => txKeyOf ln == k) := by
  suffices h : ∀ g, lookupGroup
      (lines.foldl (fun g ln => updateGroups g (txKeyOf ln) ln) g) k =
      lookupGroup g k ++ lines.filter (fun ln => txKeyOf ln == k) by
    simpa [groupByTransaction, lookupGroup] using h []
  induction lines with
  | nil => intro g; simp
  | cons ln ls ih =>
    intro g
    simp only [List.foldl_cons, List.filter_cons]
    rw [ih (updateGroups g (txKeyOf ln) ln), lookupGroup_update]
    by_cases hk : txKeyOf ln = k
    · rw [if_pos (show k = txKeyOf ln from hk.symm)]
      simp [hk, List.append_assoc]
    · rw [if_neg (show ¬ k = txKeyOf ln from fun hh => hk hh.symm)]
      simp [hk]

theorem flatten_update (g : List (String × List String)) (k ln : String) :
    ((updateGroups g k ln).map Prod.snd).flatten.Perm
      (ln :: (g.map Prod.snd).flatten) := by
  induction g with
  | nil => simp [updateGroups]
  | cons p ps ih =>
    unfold updateGroups
    split
    · simp only [List.map_cons, List.flatten_cons]
      rw [List.append_assoc]
      exact List.perm_middle
    · simp only [List.map_cons, List.flatten_cons]
      exact (List.Perm.append_left p.2 ih).trans List.perm_middle

theorem groupBy_flatten_perm (lines : List String) :
    ((groupByTransaction lines).map Prod.snd).flatten.Perm lines := by
  suffices h : ∀ g, ((lines.foldl
      (fun g ln => updateGroups g (txKeyOf ln) ln) g).map Prod.snd).flatten.Perm
      ((g.map Prod.snd).flatten ++ lines) by
    simpa [groupByTransaction] using h []
  induction lines with
  | nil => intro g; simp
  | cons ln ls ih =>
    intro g
    simp only [List.foldl_cons]
    refine (ih _).trans ?_
    refine ((flatten_update g (txKeyOf ln) ln).append_right ls).trans ?_
    exact List.perm_middle.symm

instance : IsTotal (String × Nat) (fun a b => b.2 ≤ a.2) :=
  ⟨fun a b => Nat.le_total b.2 a.2⟩

instance : IsTrans (String × Nat) (fun a b => b.2 ≤ a.2) :=
  ⟨fun _ _ _ h1 h2 => Nat.le_trans h2 h1⟩

theorem strLt_asymm : ∀ as bs, strLtChars as bs = true → strLtChars bs as = false := by
  intro as
  induction as with
  | nil =>
    intro bs h
    cases bs with
    | nil => simp [strLtChars] at h
    | cons b bt => simp [strLtChars]
  | cons a at_ ih =>
    intro bs h
    cases bs with
    | nil => simp [strLtChars] at h
    | cons b bt =>
      unfold strLtChars at h ⊢
      by_cases h1 : a.toNat < b.toNat
      · rw [if_neg (by omega), if_pos h1]
      · rw [if_neg h1] at h
        by_cases h2 : b.toNat < a.toNat
        · rw [if_pos h2] at h; exact absurd h (by simp)
        · rw [if_neg h2] at h
          rw [if_neg h2, if_neg h1]
          exact ih bt h

theorem strLt_cotrans : ∀ cs as bs, strLtChars cs as = true →
    strLtChars cs bs = true ∨ strLtChars bs as = true := by
  intro cs
  induction cs with
  | nil =>
    intro as bs h
    cases as with
    | nil => simp [strLtChars] at h
    | cons a at_ =>
      cases bs with
      | nil => right; simp [strLtChars]
      | cons b bt => left; simp [strLtChars]
  | cons c ct ih =>
    intro as bs h
    cases as with
    | nil => simp [strLtChars] at h
    | cons a at_ =>
      cases bs with
      | nil => right; simp [strLtChars]
      | cons b bt =>
        unfold strLtChars at h ⊢
        by_cases hca : c.toNat < a.toNat
        · by_cases hcb : c.toNat < b.toNat
          · left; rw [if_pos hcb]
          · right
            rw [if_pos (by omega)]
        · rw [if_neg hca] at h
          by_cases hac : a.toNat < c.toNat
          · rw [if_pos hac] at h; exact absurd h (by simp)
          · rw [if_neg hac] at h
            by_cases hcb : c.toNat < b.toNat
            · left; rw [if_pos hcb]
            · by_cases hbc : b.toNat < c.toNat
              · right
                rw [if_pos (by omega)]
              · rcases ih at_ bt h with h2 | h2
                · left
                  rw [if_neg hcb, if_neg hbc]
                  exact h2
                · right
                  rw [if_neg (by omega), if_neg (by omega)]
                  exact h2

instance : IsTotal (String × Nat) countKeyRel := by
  constructor
  intro a b
  rcases Nat.lt_trichotomy a.2 b.2 with h | h | h
  · right; left; exact h
  · by_cases hlt : strLtChars b.1.data a.1.data = true
    · right; right
      refine ⟨h.symm, ?_⟩
      unfold strLeB
      rw [strLt_asymm _ _ hlt]
      rfl
    · left; right
      refine ⟨h, ?_⟩
      unfold strLeB
      rw [Bool.not_eq_true] at hlt
      rw [hlt]
      rfl
  · left; left; exact h

instance : IsTrans (String × Nat) countKeyRel := by
  constructor
  intro a b c h1 h2
  rcases h1 with h1 | ⟨h1e, h1s⟩
  · rcases h2 with h2 | ⟨h2e, h2s⟩
    · left; omega
    · left; omega
  · rcases h2 with h2 | ⟨h2e, h2s⟩
    · left; omega
    · right
      refine ⟨by omega, ?_⟩
      unfold strLeB at h1s h2s ⊢
      rw [Bool.not_eq_eq_eq_not, Bool.not_true] at h1s h2s ⊢
      cases hca : strLtChars c.1.data a.1.data with
      | false => rfl
      | true =>
        rcases strLt_cotrans _ _ b.1.data hca with hx | hx
        · rw [h2s] at hx; exact absurd hx (by simp)
        · rw [h1s] at hx; exact absurd hx (by simp)

theorem filter_orderedInsert (x : String × Nat) (l : List (String × Nat)) (c : Nat) :
    ((List.orderedInsert (fun a b => b.2 ≤ a.2) x l).filter (fun p => p.2 == c)) =
      if x.2 = c then x :: l.filter (fun p => p.2 == c)
      else l.filter (fun p => p.2 == c) := by
  induction l with
  | nil => by_cases h : x.2 = c <;> simp [List.orderedInsert, h]
  | cons y ys ih =>
    show (if y.2 ≤ x.2 then x :: y :: ys
      else y :: List.orderedInsert _ x ys).filter (fun p => p.2 == c) = _
    by_cases hr : y.2 ≤ x.2
    · rw [if_pos hr]
      by_cases hc : x.2 = c <;> simp [List.filter_cons, hc]
    · rw [if_neg hr]
      rw [List.filter_cons, List.filter_cons]
      by_cases hc : x.2 = c
      · have hy : ¬ y.2 = c := by omega
        simp only [hc, if_pos, ih]
        simp [hy, hc]
      · by_cases hy : y.2 = c <;> simp [hy, hc, ih]

theorem filter_sortByCountDesc (l : List (String × Nat)) (c : Nat) :
    (sortByCountDesc l).filter (fun p => p.2 == c) =
      l.filter (fun p => p.2 == c) := by
  unfold sortByCountDesc
  induction l with
  | nil => rfl
  | cons a l ih =>
    show (List.orderedInsert _ a (List.insertionSort _ l)).filter _ = _
    rw [filter_orderedInsert, List.filter_cons]
    by_cases hc : a.2 = c <;> simp [hc, ih]

instance : IsTotal (String × Int) (fun a b => b.2 ≤ a.2) :=
  ⟨fun a b => Int.le_total b.2 a.2⟩

instance : IsTrans (String × Int) (fun a b => b.2 ≤ a.2) :=
  ⟨fun _ _ _ h1 h2 => le_trans h2 h1⟩

theorem existingFiles_filter (fs : FS) (paths : List String) :
    existingFiles fs (paths.filter (fun p => isRegB fs p)) =
      existingFiles fs paths := by
  induction paths with
  | nil => rfl
  | cons p ps ih =>
    rw [List.filter_cons]
    by_cases hreg : isRegB fs p
    · rw [if_pos hreg]
      unfold existingFiles at ih ⊢
      rw [List.filterMap_cons, List.filterMap_cons]
      unfold isRegB at hreg
      cases hfs : fs p with
      | none => rw [hfs] at hreg; simp at hreg
      | some fd =>
        rw [hfs] at hreg
        dsimp only at hreg ⊢
        rw [if_pos hreg]
        exact congrArg _ ih
    · rw [if_neg hreg]
      unfold existingFiles at ih ⊢
      conv_rhs => rw [List.filterMap_cons]
      unfold isRegB at hreg
      cases hfs : fs p with
      | none => exact ih
      | some fd =>
        rw [hfs] at hreg
        dsimp only at hreg ⊢
        rw [if_neg hreg]
        exact ih

theorem collect_ignores_nonfiles (fs : FS) (paths : List String) (capT capF : Nat) :
    collectRecentLogLines fs (paths.filter (fun p => isRegB fs p)) capT capF none =
      collectRecentLogLines fs paths capT capF none := by
  unfold collectRecentLogLines
  dsimp only
  by_cases hT : capT = 0
  · simp [hT]
  by_cases hF : capF = 0
  · simp [hF]
  by_cases hp : paths = []
  · subst hp; rfl
  by_cases hq : paths.filter (fun p => isRegB fs p) = []
  · rw [if_pos (Or.inl hq), if_neg (by simp [hp, hT, hF])]
    have h1 : existingFiles fs paths = [] := by
      rw [← existingFiles_filter fs paths, hq]
      rfl
    rw [h1]
    rfl
  · rw [if_neg (by simp [hq, hT, hF]), if_neg (by simp [hp, hT, hF])]
    rw [existingFiles_filter]

theorem splitOnNl_ne_nil (cs : List Char) : splitOnNl cs ≠ [] := by
  induction cs with
  | nil => simp [splitOnNl]
  | cons c cs ih =>
    unfold splitOnNl
    by_cases hc : c = '\n'
    · rw [if_pos hc]; simp
    · rw [if_neg hc]
      cases hs : splitOnNl cs <;> simp

theorem splitOnNl_lens (cs : List Char) :
    ((splitOnNl cs).map List.length).sum ≤ cs.length := by
  induction cs with
  | nil => simp [splitOnNl]
  | cons c cs ih =>
    unfold splitOnNl
    by_cases hc : c = '\n'
    · rw [if_pos hc]
      simp only [List.map_cons, List.sum_cons, List.length_cons, List.length_nil]
      omega
    · rw [if_neg hc]
      cases hs : splitOnNl cs with
      | nil => exact absurd hs (splitOnNl_ne_nil cs)
      | cons p ps =>
        rw [hs] at ih
        simp only [List.map_cons, List.sum_cons, List.length_cons] at ih ⊢
        omega

theorem sum_map_dropLast (l : List Nat) : l.dropLast.sum ≤ l.sum := by
  cases hl : l.getLast? with
  | none => rw [List.getLast?_eq_none_iff.1 hl]; simp
  | some a =>
    have hne : l ≠ [] := by
      intro h; subst h; simp at hl
    conv_rhs => rw [← List.dropLast_append_getLast hne]
    rw [List.sum_append]
    simp

theorem pySplitlines_lens (s : String) :
    sumLens (pySplitlines s) ≤ s.data.length := by
  unfold pySplitlines
  split
  · simp [sumLens]
  · unfold sumLens pySplitCore
    have hmap : ∀ ps : List (List Char),
        ((ps.map String.mk).map String.length).sum = (ps.map List.length).sum := by
      intro ps
      induction ps with
      | nil => rfl
      | cons p pt ih => simp only [List.map_cons, List.sum_cons, ih]; rfl
    dsimp only
    split
    · rw [hmap]
      refine le_trans ?_ (splitOnNl_lens s.data)
      have := sum_map_dropLast ((splitOnNl s.data).map List.length)
      rw [List.map_dropLast]
      exact this
    · rw [hmap]
      exact splitOnNl_lens s.data

theorem sumLens_append (a b : List String) :
    sumLens (a ++ b) = sumLens a + sumLens b := by
  simp [sumLens]

theorem collectLoop_sum (fs : FS) (capT capF : Nat) :
    ∀ (fl : List (String × Int)) (total : Nat) (acc : List String),
      sumLens acc ≤ total →
      sumLens (collectLoop fs capT capF fl total acc) ≤
        max total ((capT - 1) + capF) := by
  intro fl
  induction fl with
  | nil =>
    intro total acc h
    exact le_trans h (le_max_left _ _)
  | cons pf rest ih =>
    intro total acc h
    obtain ⟨p, m⟩ := pf
    unfold collectLoop
    split
    · exact le_trans h (le_max_left _ _)
    · rename_i hlt
      cases hfs : fs p with
      | none => exact ih total acc h
      | some fd =>
        dsimp only
        split
        · exact ih total acc h
        · rename_i hchunk
          have hck : ((fd.content.drop (fd.content.length - capF)).take capF).length ≤ capF :=
            List.length_take_le capF _
          have hacc2 : sumLens (acc ++ pySplitlines (String.mk
              ((fd.content.drop (fd.content.length - capF)).take capF))) ≤
              total + ((fd.content.drop (fd.content.length - capF)).take capF).length := by
            rw [sumLens_append]
            have := pySplitlines_lens (String.mk
              ((fd.content.drop (fd.content.length - capF)).take capF))
            simp only [] at this
            omega
          have hrec := ih _ _ hacc2
          refine le_trans hrec ?_
          have ht : total + ((fd.content.drop (fd.content.length - capF)).take capF).length ≤
              (capT - 1) + capF := by omega
          exact max_le (le_trans ht (le_max_right _ _)) (le_max_right _ _)

theorem collect_byte_bound (fs : FS) (paths : List String) (capT capF : Nat) :
    sumLens (collectRecentLogLines fs paths capT capF none) ≤ (capT - 1) + capF := by
  unfold collectRecentLogLines
  dsimp only
  split
  · simp [sumLens]
  · rw [List.nil_append]
    have := collectLoop_sum fs capT capF
      (sortByMtimeDesc (existingFiles fs paths)) 0 [] (by simp [sumLens])
    simpa using this

theorem strDataAppend (a b : String) : (a ++ b).data = a.data ++ b.data := by
  obtain ⟨la⟩ := a
  obtain ⟨lb⟩ := b
  rfl

theorem strLenAppend (a b : String) : (a ++ b).length = a.length + b.length := by
  obtain ⟨la⟩ := a
  obtain ⟨lb⟩ := b
  show (la ++ lb).length = la.length + lb.length
  exact List.length_append la lb

theorem pyTake_len_le (s : String) (n : Nat) : (pyTake s n).length ≤ n := by
  show (s.data.take n).length ≤ n
  exact List.length_take_le n _

theorem pyJoin_cons_ne_nil (sep x : String) (l : List String) (h : l ≠ []) :
    pyJoin sep (x :: l) = x ++ sep ++ pyJoin sep l := by
  cases l with
  | nil => exact absurd rfl h
  | cons y ys => rfl

theorem pyJoin_suffix_last (sep m : String) (xs : List String) :
    m.data <:+ (pyJoin sep (xs ++ [m])).data := by
  induction xs with
  | nil => simp [pyJoin]
  | cons x xs ih =>
    rw [show (x :: xs) ++ [m] = x :: (xs ++ [m]) from rfl]
    rw [pyJoin_cons_ne_nil sep x _ (by simp)]
    rw [strDataAppend]
    exact ih.trans (List.suffix_append _ _)

theorem emitGreedy_front (cap : Nat) :
    ∀ (ps : List String) (used : Nat), emitGreedy cap ps used <+: ps := by
  intro ps
  induction ps with
  | nil => intro used; exact List.nil_prefix
  | cons p pt ih =>
    intro used
    unfold emitGreedy
    split
    · exact List.nil_prefix
    · exact List.cons_prefix_cons.2 ⟨rfl, ih _⟩

theorem c3BigMsg_len : c3BigMsg.length = 9000 := by
  rw [show c3BigMsg.length = (List.replicate 9000 'a').length from rfl,
    List.length_replicate]

theorem c3_errorAnalysis_long : 9000 ≤ (errorAnalysisText c3Patterns).length := by
  unfold errorAnalysisText
  rw [if_neg (by decide), if_pos (by decide), if_neg (by decide),
    if_neg (by decide), if_neg (by decide), if_neg (by decide)]
  have h1 : sortByCountDesc c3Patterns.error_messages = [(c3BigMsg, 1)] := rfl
  rw [h1]
  have h2 : pyDictRepr [(c3BigMsg, 1)] =
      "\x7b" ++ ("\x27" ++ c3BigMsg ++ "\x27: " ++ toString (1 : Nat)) ++ "\x7d" := rfl
  rw [h2]
  simp only [strLenAppend, c3BigMsg_len]
  omega

theorem strEqEmpty (x : String) (h : x.data = []) : x = "" := by
  obtain ⟨d⟩ := x
  simp only at h
  subst h
  rfl

theorem splitOnNl_no_nl (l : List Char) (h : '\n' ∉ l) : splitOnNl l = [l] := by
  induction l with
  | nil => rfl
  | cons c cs ih =>
    simp only [List.mem_cons, not_or] at h
    unfold splitOnNl
    rw [if_neg (fun hc => h.1 hc.symm)]
    rw [ih h.2]

theorem splitOnNl_append_piece (l rest : List Char) (h : '\n' ∉ l) :
    splitOnNl (l ++ '\n' :: rest) = l :: splitOnNl rest := by
  induction l with
  | nil =>
    simp only [List.nil_append]
    rw [show splitOnNl ('\n' :: rest) =
      if '\n' = '\n' then [] :: splitOnNl rest else
        match splitOnNl rest with
        | [] => [['\n']]
        | p :: ps => ('\n' :: p) :: ps from rfl]
    rw [if_pos rfl]
  | cons c cs ih =>
    simp only [List.mem_cons, not_or] at h
    show splitOnNl (c :: (cs ++ '\n' :: rest)) = _
    rw [show splitOnNl (c :: (cs ++ '\n' :: rest)) =
      if c = '\n' then [] :: splitOnNl (cs ++ '\n' :: rest) else
        match splitOnNl (cs ++ '\n' :: rest) with
        | [] => [[c]]
        | p :: ps => (c :: p) :: ps from rfl]
    rw [if_neg (fun hc => h.1 hc.symm)]
    rw [ih h.2]

theorem pySplitlines_join (ls : List String) (hne : ls ≠ [])
    (h : ∀ x ∈ ls, x ≠ "" ∧ '\n' ∉ x.data) :
    pySplitlines (pyJoin "\n" ls) = ls := by
  induction ls with
  | nil => exact absurd rfl hne
  | cons x tl ih =>
    obtain ⟨hx1, hx2⟩ := h x (by simp)
    have hxd : x.data ≠ [] := fun hh => hx1 (strEqEmpty x hh)
    cases tl with
    | nil =>
      show pySplitlines x = [x]
      unfold pySplitlines
      rw [if_neg hxd]
      unfold pySplitCore
      rw [splitOnNl_no_nl x.data hx2]
      dsimp only
      rw [if_neg (by simpa using hxd)]
      simp [strMkData]
    | cons y tl2 =>
      have hyd : (pyJoin "\n" (y :: tl2)).data ≠ [] := by
        have hy1 := (h y (by simp)).1
        cases tl2 with
        | nil => exact fun hh => hy1 (strEqEmpty y hh)
        | cons z zs =>
          rw [pyJoin_cons_ne_nil "\n" y _ (by simp), strDataAppend, strDataAppend]
          intro hh
          rcases List.append_eq_nil.1 hh with ⟨hh1, _⟩
          rcases List.append_eq_nil.1 hh1 with ⟨hh2, _⟩
          exact hy1 (strEqEmpty y hh2)
      rw [pyJoin_cons_ne_nil "\n" x (y :: tl2) (by simp)]
      have hdata : (x ++ "\n" ++ pyJoin "\n" (y :: tl2)).data =
          x.data ++ '\n' :: (pyJoin "\n" (y :: tl2)).data := by
        rw [strDataAppend, strDataAppend]
        simp
      unfold pySplitlines
      rw [hdata]
      rw [if_neg (by simp [hxd])]
      unfold pySplitCore
      rw [splitOnNl_append_piece x.data _ hx2]
      dsimp only
      obtain ⟨p0, ps0, hps0⟩ : ∃ p0 ps0,
          splitOnNl (pyJoin "\n" (y :: tl2)).data = p0 :: ps0 := by
        cases hsp : splitOnNl (pyJoin "\n" (y :: tl2)).data with
        | nil => exact absurd hsp (splitOnNl_ne_nil _)
        | cons a b => exact ⟨a, b, rfl⟩
      rw [hps0]
      have hIH := ih (by simp) (fun z hz => h z (by simp [hz]))
      unfold pySplitlines at hIH
      rw [if_neg hyd] at hIH
      unfold pySplitCore at hIH
      rw [hps0] at hIH
      dsimp only at hIH
      rw [List.getLast?_cons_cons]
      by_cases hlast : (p0 :: ps0).getLast? = some []
      · rw [if_pos hlast] at hIH
        rw [if_pos hlast]
        rw [show (x.data :: p0 :: ps0).dropLast =
          x.data :: (p0 :: ps0).dropLast from rfl]
        simp only [List.map_cons] at hIH ⊢
        rw [strMkData]
        rw [show ((p0 :: ps0).dropLast).map String.mk =
          ((p0 :: ps0).dropLast).map String.mk from rfl] at hIH ⊢
        exact congrArg (x :: ·) hIH
      · rw [if_neg hlast] at hIH
        rw [if_neg hlast]
        simp only [List.map_cons] at hIH ⊢
        rw [strMkData]
        exact congrArg (x :: ·) hIH

theorem pyJoin_replicate_len (x : String) :
    ∀ n, (pyJoin "\n" (List.replicate (n + 1) x)).data.length =
      (n + 1) * x.data.length + n := by
  intro n
  induction n with
  | zero => simp [pyJoin]
  | succ n ih =>
    rw [show List.replicate (n + 2) x = x :: List.replicate (n + 1) x from rfl]
    rw [pyJoin_cons_ne_nil "\n" x _ (by simp)]
    rw [strDataAppend, strDataAppend]
    simp only [List.length_append]
    rw [ih]
    have hnl : ("\n" : String).data.length = 1 := rfl
    rw [hnl]
    ring

theorem c1Content_len : c1Content.data.length = 9599 := by
  have h95 : c1Line.data.length = 95 := by decide
  have h := pyJoin_replicate_len c1Line 99
  rw [h95] at h
  unfold c1Content c1Lines
  rw [show (100 : Nat) = 99 + 1 from rfl, h]

theorem c1_collect :
    collectRecentLogLines c1FS [c1Path] 5000000 1000000 none = c1Lines := by
  have hsplit : pySplitlines c1Content = c1Lines := by
    unfold c1Content
    refine pySplitlines_join c1Lines (by simp [c1Lines]) ?_
    intro x hx
    rw [List.eq_of_mem_replicate hx]
    exact ⟨by decide, by decide⟩
  have hne : c1Content.data ≠ [] := by
    intro hh
    have := c1Content_len
    rw [hh] at this
    simp at this
  unfold collectRecentLogLines
  rw [if_neg (by decide)]
  dsimp only
  rw [show sortByMtimeDesc (existingFiles c1FS [c1Path]) = [(c1Path, 5)] from rfl]
  unfold collectLoop
  rw [if_neg (by decide)]
  rw [show c1FS c1Path = some c1FD from rfl]
  dsimp only
  have hlen9599 : c1FD.content.length = 9599 := c1Content_len
  have hchunk : (c1FD.content.drop (c1FD.content.length - 1000000)).take 1000000 =
      c1Content.data := by
    rw [show c1FD.content.length - 1000000 = 0 from by omega, List.drop_zero]
    exact List.take_of_length_le (by omega)
  rw [hchunk]
  rw [if_neg hne]
  unfold collectLoop
  rw [strMkData, hsplit]
  simp

theorem c1_result_eq :
    c1Result = regularFallbackResult 1 1 [("error", 100), ("payment", 100)] := by
  unfold c1Result runPatternAgentRegular
  rw [if_neg (by decide)]
  dsimp only
  rw [c1_collect]
  rw [if_neg (show ¬ c1Lines = [] by decide)]
  dsimp only [llmFail]
  rw [show (groupByTransaction c1Lines).length = 1 from by decide]
  rw [show countKeywords c1Lines = [("error", 100), ("payment", 100)] from by decide]
  rfl

/-! ## Claim theorems -/

/-- C6: given the empty file list, `run_pattern_agent_once` returns the
EMPTY-state message of `_get_empty_analysis` and sends no prompt to the
model collaborator. -/
theorem c6_empty_list_no_model_call (fs : FS) (llm : Llm) (capT capF snipCap : Nat) :
    runPatternAgentOnce fs llm [] capT capF snipCap = (getEmptyAnalysis, []) := rfl

/-- C10: when the first file of the list exists and its size exceeds
100 MB, `run_pattern_agent_once` analyzes exactly that file through the
streaming path; the remaining files play no part in the result. -/
theorem c10_first_large_file_streams (fs : FS) (llm : Llm) (f : String)
    (rest : List String) (capT capF snipCap : Nat) (fd : FileData)
    (hf : fs f = some fd) (hsize : 100 * 1048576 < fd.size) :
    runPatternAgentOnce fs llm (f :: rest) capT capF snipCap =
      runPatternAgentStreaming fs llm f := by
  simp only [runPatternAgentOnce, hf]
  simp [hsize]

/-- Witness for C10 at a concrete 200 MiB file. -/
theorem c10_first_large_file_streams_witness :
    c10FS "big.log" = some c10FD ∧ 100 * 1048576 < c10FD.size ∧
    runPatternAgentOnce c10FS llmFail ["big.log"] 5000000 1000000 8000 =
      runPatternAgentStreaming c10FS llmFail "big.log" :=
  ⟨rfl, by norm_num [c10FD],
   c10_first_large_file_streams c10FS llmFail "big.log" [] 5000000 1000000 8000
     c10FD rfl (by norm_num [c10FD])⟩

/-- C9: `read_sqlite_log_rows` never returns a formatted line: the
mis-indented `return []` at analyzer.py line 208 runs unconditionally, so
every call returns the empty list, while the unreachable formatting code
below it would have produced one line per row (second conjunct, evaluated
at a concrete populated table). -/
theorem c9_sqlite_rows_always_empty :
    (∀ (db : Db) (table : String) (limit : Nat),
      readSqliteLogRows db table limit = []) ∧
    sqliteFormattedRows c9Db 2000 = ["ts=t1 level=ERROR msg=boom"] := by
  constructor
  · intro db table limit
    unfold readSqliteLogRows
    split
    · rfl
    · split
      · rfl
      · rfl
  · decide

/-- C5: for every file and sample budget `N`, the sampler returns at most
`N` samples and every returned sample carries level ERROR or WARN. -/
theorem c5_sampler_bounds (fs : FS) (p : String) (N : Nat) (s : Sample)
    (hs : s ∈ extractRepresentativeSamples fs p N) :
    (extractRepresentativeSamples fs p N).length ≤ N ∧
    (s.level = "ERROR" ∨ s.level = "WARN") := by
  constructor
  · unfold extractRepresentativeSamples
    cases fs p with
    | none => simp
    | some fd =>
      simp only []
      exact List.length_take_le N _
  · unfold extractRepresentativeSamples at hs
    cases hfs : fs p with
    | none => rw [hfs] at hs; simp at hs
    | some fd =>
      rw [hfs] at hs
      simp only at hs
      exact samplesLoop_level fd.content N _ [] (by simp) s
        (List.mem_of_mem_take hs)

/-- Witness for C5 at a one-line WARN file with budget 1. -/
theorem c5_sampler_bounds_witness :
    c5Sample ∈ extractRepresentativeSamples c5FS "f.log" 1 ∧
    ((extractRepresentativeSamples c5FS "f.log" 1).length ≤ 1 ∧
     (c5Sample.level = "ERROR" ∨ c5Sample.level = "WARN")) :=
  ⟨by decide, c5_sampler_bounds c5FS "f.log" 1 c5Sample (by decide)⟩

/-- C4: the `recent_warnings` sliding window of `_extract_error_patterns`
holds at most five entries after any number of processed lines (the first
conjunct ranges over every line sequence, hence over every prefix of a
scan), and a sixth WARN evicts the oldest entry (second conjunct). -/
theorem c4_warn_window_capped (lines : List String) (st : EPState)
    (line : String) (w : WarnEntry) (h5 : st.recent_warnings.length = 5)
    (hw : warnParse line = some w) :
    ((lines.foldl epStep epInit).recent_warnings).length ≤ 5 ∧
    (epStep st line).recent_warnings = st.recent_warnings.drop 1 ++ [w] :=
  ⟨epFold_window_le lines, epStep_evict st line w h5 hw⟩

/-- C1 counterexample: on the scenario file (the structured PAY_001 line
repeated 100 times in one small file) with the collaborator forced to fail,
the deterministic fallback output of the regular path does not contain the
string `PAY_001` at all, so it does not report error code PAY_001 with
count 100. -/
theorem c1_counterexample : containsSub "PAY_001" c1Result = false := by
  rw [c1_result_eq]
  decide

/-- C1 amended: on the scenario input with the collaborator forced to
fail, the locally computed aggregate statistics do report error code
PAY_001 with count 100 and category PAYMENT with count 100 (second and
third conjuncts), but the rendered fallback is the fixed
`Analysis unavailable` template whose only locally computed numbers are the
header counts — 1 file, 1 transaction group, keyword counts
error(100), payment(100) (first conjunct). -/
theorem c1_fallback_vs_stats :
    c1Result = regularFallbackResult 1 1 [("error", 100), ("payment", 100)] ∧
    (extractErrorPatterns c1Lines).error_codes = [("PAY_001", 100)] ∧
    (extractErrorPatterns c1Lines).error_categories = [("PAYMENT", 100)] :=
  ⟨c1_result_eq, by decide, by decide⟩

/-- C3 counterexample: the rendered outgoing prompt of the regular path
exceeds the 8000-character budget (here `MAX_PROMPT_CHARS`, declared in the
source but applied nowhere): a single 9000-character error message makes
`build_pattern_agent_prompt` return more than 8000 characters. -/
theorem c3_counterexample : MAX_PROMPT_CHARS < c3Prompt.length := by
  have hEA := c3_errorAnalysis_long
  unfold c3Prompt buildPatternAgentPrompt MAX_PROMPT_CHARS
  rw [if_pos (by decide)]
  simp only [strLenAppend]
  omega

/-- C3 amended: the streaming-path prompt is hard-sliced to at most 8000
characters (possibly mid-line, without a marker); the regular-path prompt
embeds at most the first 3000 snippet characters but is otherwise uncapped;
and the snippet builder's main (hit-bearing) path never splits a line —
its output is either the complete rendered parts or ends with the explicit
`... [truncated]` marker. -/
theorem c3_prompt_budget_amended (fp : String) (st : StreamStats)
    (samples : List Sample) (lines : List String) (cap : Nat)
    (hhit : hitIndices lines ≠ []) (hcap : 0 < cap) :
    (buildStreamingLlmPrompt fp st samples).length ≤ 8000 ∧
    (truncMarker.data <:+ (buildAgentSnippets lines cap).data ∨
     buildAgentSnippets lines cap = pyJoin "\n" (snippetParts lines)) := by
  constructor
  · unfold buildStreamingLlmPrompt
    dsimp only
    exact pyTake_len_le _ _
  · unfold buildAgentSnippets
    have hguard : ¬ (lines = [] ∨ cap = 0) := by
      rintro (h | h)
      · exact hhit (by rw [h]; rfl)
      · omega
    rw [if_neg hguard]
    dsimp only
    rw [if_neg hhit]
    by_cases hlt : (emitGreedy cap (snippetParts lines) 0).length <
        (snippetParts lines).length
    · rw [if_pos hlt]
      left
      exact pyJoin_suffix_last "\n" truncMarker _
    · rw [if_neg hlt]
      right
      congr 1
      exact (emitGreedy_front cap _ 0).eq_of_length
        (le_antisymm ((emitGreedy_front cap _ 0).length_le) (not_lt.1 hlt))

/-- Witness for the amended C3 at a one-line error input and budget 5. -/
theorem c3_prompt_budget_amended_witness :
    hitIndices c3Lines ≠ [] ∧ 0 < 5 ∧
    ((buildStreamingLlmPrompt "x.log" c3Stats0 []).length ≤ 8000 ∧
     (truncMarker.data <:+ (buildAgentSnippets c3Lines 5).data ∨
      buildAgentSnippets c3Lines 5 = pyJoin "\n" (snippetParts c3Lines))) :=
  ⟨by decide, by decide,
   c3_prompt_budget_amended "x.log" c3Stats0 [] c3Lines 5 (by decide) (by decide)⟩

/-- C7 counterexample: with the byte caps of the regular analysis path, the
line collector reads lines from all six existing regular files of the
candidate list — one line from each, newest first — although
`MAX_FILES = 5`; the constant is declared but applied nowhere. -/
theorem c7_counterexample :
    collectRecentLogLines c7FS c7Paths 5000000 1000000 none =
      ["a6", "a5", "a4", "a3", "a2", "a1"] ∧ MAX_FILES = 5 :=
  ⟨by decide, rfl⟩

/-- C7 amended: the collector orders the existing regular files by
descending modification time (first two conjuncts), silently excludes
paths that are not regular files or cannot be stat-ed (third conjunct),
and is bounded by the byte caps — the decoded output never exceeds
`bytes_cap_total - 1 + bytes_cap_per_file` characters (fourth conjunct) —
but no `MAX_FILES` cap applies to an explicit path list. -/
theorem c7_collector_behavior (fs : FS) (paths : List String) (capT capF : Nat) :
    List.Sorted (fun a b : String × Int => b.2 ≤ a.2)
      (sortByMtimeDesc (existingFiles fs paths)) ∧
    (sortByMtimeDesc (existingFiles fs paths)).Perm (existingFiles fs paths) ∧
    collectRecentLogLines fs (paths.filter (fun p => isRegB fs p)) capT capF none =
      collectRecentLogLines fs paths capT capF none ∧
    sumLens (collectRecentLogLines fs paths capT capF none) ≤ (capT - 1) + capF :=
  ⟨List.sorted_insertionSort _ _, List.perm_insertionSort _ _,
   collect_ignores_nonfiles fs paths capT capF,
   collect_byte_bound fs paths capT capF⟩

/-- C8: grouping by transaction partitions the input lines — the group of
key `k` is exactly the in-order sublist of lines whose extracted key
(normalized identifier, or the sentinel `unknown` when no pattern matches,
as computed by `txKeyOf`) equals `k`, and the groups together hold every
input line exactly once (their concatenation is a permutation of the
input). -/
theorem c8_grouping_partitions_lines (lines : List String) :
    (∀ k, lookupGroup (groupByTransaction lines) k =
      lines.filter (fun ln => txKeyOf ln == k)) ∧
    ((groupByTransaction lines).map Prod.snd).flatten.Perm lines :=
  ⟨fun k => groupBy_lookup lines k, groupBy_flatten_perm lines⟩

/-- C2 counterexample: two aggregate-statistics values that are identical
as mappings (the same two error codes with the same counts, inserted in
different orders) render to different bytes, and the tie between the
equal-count codes is resolved by insertion order, not by ascending key. -/
theorem c2_counterexample :
    c2s1.error_codes.Perm c2s2.error_codes ∧
    formatTopKeywords c2s1 ≠ formatTopKeywords c2s2 := by
  constructor
  · exact List.Perm.swap _ _ _
  · decide

/-- C2 amended: every frequency-table rendering sorts with
`sortByCountDesc` (descending count; equal counts keep first-insertion
order, shown by the filter identity) except the keyword lines, which sort
with `sortByCountKey` (descending count, ascending key on ties); both are
deterministic permutations of the insertion-ordered table. -/
theorem c2_rendering_order (l : List (String × Nat)) (c : Nat) :
    List.Sorted (fun a b => b.2 ≤ a.2) (sortByCountDesc l) ∧
    (sortByCountDesc l).Perm l ∧
    (sortByCountDesc l).filter (fun p => p.2 == c) =
      l.filter (fun p => p.2 == c) ∧
    List.Sorted countKeyRel (sortByCountKey l) ∧
    (sortByCountKey l).Perm l :=
  ⟨List.sorted_insertionSort _ l, List.perm_insertionSort _ l,
   filter_sortByCountDesc l c, List.sorted_insertionSort _ l,
   List.perm_insertionSort _ l⟩

/-- Witness for C4: seven structured WARN lines in a row, and a full
window receiving a sixth warning. -/
theorem c4_warn_window_capped_witness :
    c4St5.recent_warnings.length = 5 ∧ warnParse c4WarnLine = some c4W ∧
    ((((List.replicate 7 c4WarnLine).foldl epStep epInit).recent_warnings).length ≤ 5 ∧
     (epStep c4St5 c4WarnLine).recent_warnings =
       c4St5.recent_warnings.drop 1 ++ [c4W]) :=
  ⟨by decide, by decide,
   c4_warn_window_capped (List.replicate 7 c4WarnLine) c4St5 c4WarnLine c4W
     (by decide) (by decide)⟩

end RCA
